import Mathlib

/-!
Verification development for the Stash→Plex metadata agent
(`stashplexagent.py`).  The Python source is shallowly embedded below:
pure functions become Lean functions, the module-level mutable state
(`_cache` and the documents it aliases) becomes explicit state passing,
machine floats become exact rationals (`ℚ`), and fallible operations
return `Option`.  `time.monotonic()` is modelled by an explicit `now`
parameter and the configuration read at startup by an explicit `Config`
record.

Because Mathlib's instance path for `+`, `-`, `*` on `ℚ` does not reduce
inside the kernel, the embedding uses the explicitly computable wrappers
`qadd`, `qsub`, `qmul`, `qneg` (each proved equal to the Mathlib
operation), so that every definition evaluates on concrete inputs with
`decide`.
-/

namespace StashPlex

/-- Exact rational addition, computable by kernel reduction.
Proved equal to `HAdd.hAdd` on `ℚ` in `qadd_eq`. -/
def qadd (a b : ℚ) : ℚ := mkRat (a.num * b.den + b.num * a.den) (a.den * b.den)

/-- Exact rational negation, computable by kernel reduction. -/
def qneg (a : ℚ) : ℚ := mkRat (-a.num) a.den

/-- Exact rational subtraction, computable by kernel reduction. -/
def qsub (a b : ℚ) : ℚ := qadd a (qneg b)

/-- Exact rational multiplication, computable by kernel reduction. -/
def qmul (a b : ℚ) : ℚ := mkRat (a.num * b.num) (a.den * b.den)

/-- Python `int(x)` applied to a float: truncation toward zero.
On a rational `q` this is `q.num.tdiv q.den`. -/
def ratTrunc (q : ℚ) : ℤ := q.num.tdiv q.den

/-- Python `abs(x)` on a rational value. -/
def pyAbs (q : ℚ) : ℚ := if q < 0 then qneg q else q

/-- Python truthiness of an optional string (JSON string-or-null field):
`None` and `""` are falsy, any other string is truthy. -/
def pyTruthyStr : Option String → Bool
  | some s => !(s == "")
  | none => false

/-- Python truthiness of an optional integer: `None` and `0` are falsy. -/
def pyTruthyInt : Option ℤ → Bool
  | some n => !(n == 0)
  | none => false

/-- Python truthiness of an optional float (modelled as `ℚ`):
`None` and `0.0` are falsy. -/
def pyTruthyQ : Option ℚ → Bool
  | some q => !(q == 0)
  | none => false

/-- Python `a or dflt` where `a` is an optional string: returns `dflt`
when `a` is `None` or empty (falsy), otherwise the string itself.
Used for patterns like `scene.get("title") or scene.get("code") or ""`. -/
def strOrElse (a : Option String) (dflt : String) : String :=
  match a with
  | some s => if s == "" then dflt else s
  | none => dflt

/-- Conversion of an `Option String` JSON value to its document value:
`None` becomes JSON null. -/
def parseNatDigits (l : List Char) : Option ℕ :=
  if l ≠ [] ∧ l.all Char.isDigit then
    some (l.foldl (fun a c => a * 10 + (c.toNat - 48)) 0)
  else none

/-- Python `int(s)` on a string: optional sign followed by decimal digits
(surrounding whitespace already removed by the callers we model; the year
slice `date_str[:4]` never carries whitespace in practice).  Returns
`none` where CPython raises `ValueError`. -/
def pyParseInt (s : String) : Option ℤ :=
  match s.data with
  | '-' :: rest => (parseNatDigits rest).map (fun n => -(n : ℤ))
  | '+' :: rest => (parseNatDigits rest).map (fun n => (n : ℤ))
  | l => (parseNatDigits l).map (fun n => (n : ℤ))

/-- Days from civil date to 1970-01-01 (Gregorian, proleptic), the
standard era-based formula, with floor division. -/
def daysFromCivil (y m d : ℤ) : ℤ :=
  let y2 := if m ≤ 2 then y - 1 else y
  let era := Int.fdiv y2 400
  let yoe := y2 - era * 400
  let mp := Int.emod (m + 9) 12
  let doy := Int.fdiv (153 * mp + 2) 5 + d - 1
  let doe := yoe * 365 + Int.fdiv yoe 4 - Int.fdiv yoe 100 + doy
  era * 146097 + doe - 719468

/-- Model of CPython `datetime.fromisoformat(s).timestamp()` for the
canonical forms `YYYY-MM-DD` and `YYYY-MM-DDTHH:MM:SS` (also with a
space separator), the forms Stash emits; the naive datetime is taken at
UTC.  Other inputs yield `none` (CPython raises `ValueError` there; the
fractional-second and offset forms it would additionally accept never
occur in the claims).  The caller absorbs `none` by omitting the field. -/
def pyFromisoTimestamp (s : String) : Option ℤ :=
  match s.data with
  | [y1, y2, y3, y4, '-', m1, m2, '-', d1, d2] =>
    match parseNatDigits [y1, y2, y3, y4], parseNatDigits [m1, m2],
        parseNatDigits [d1, d2] with
    | some y, some m, some d =>
      if 1 ≤ m ∧ m ≤ 12 ∧ 1 ≤ d ∧ d ≤ 31 then
        some (daysFromCivil y m d * 86400)
      else none
    | _, _, _ => none
  | [y1, y2, y3, y4, '-', m1, m2, '-', d1, d2, sep, h1, h2, ':', mi1, mi2,
     ':', s1, s2] =>
    match parseNatDigits [y1, y2, y3, y4], parseNatDigits [m1, m2],
        parseNatDigits [d1, d2], parseNatDigits [h1, h2],
        parseNatDigits [mi1, mi2], parseNatDigits [s1, s2] with
    | some y, some m, some d, some h, some mi, some sec =>
      if (sep = 'T' ∨ sep = ' ') ∧ 1 ≤ m ∧ m ≤ 12 ∧ 1 ≤ d ∧ d ≤ 31 ∧
          h ≤ 23 ∧ mi ≤ 59 ∧ sec ≤ 59 then
        some (daysFromCivil y m d * 86400 + h * 3600 + mi * 60 + sec)
      else none
    | _, _, _, _, _, _ => none
  | _ => none

/-- JSON-like values appearing in the produced metadata documents. -/
inductive PValue where
  | null : PValue
  | str (s : String) : PValue
  | int (n : ℤ) : PValue
  | rat (q : ℚ) : PValue
  | list (xs : List PValue) : PValue
  | obj (fields : List (String × PValue)) : PValue

/-- A Plex metadata item: a Python dict in insertion order. -/
abbrev Item := List (String × PValue)

/-- Key membership in an item (Python `key in dict`). -/
def hasKeyB (it : Item) (k : String) : Bool :=
  it.any (fun kv => kv.1 == k)

/-- First-match key lookup in an item (Python `dict[key]` / `dict.get`;
keys are unique in all items the translator builds). -/
def lookupP : Item → String → Option PValue
  | [], _ => none
  | (k, v) :: rest, key => if k == key then some v else lookupP rest key

/-- Python `item.get(key, "")` for a string-valued field. -/
def itemGetStrD (it : Item) (k : String) (dflt : String) : String :=
  match lookupP it k with
  | some (PValue.str s) => s
  | _ => dflt

/-- An `Option String` JSON field as a document value (`None` → null). -/
def optStrVal : Option String → PValue
  | some s => PValue.str s
  | none => PValue.null

/-- `tags { id name }` entries of the Stash GraphQL scene projection. -/
structure STag where
  id : Option String
  name : Option String

/-- `parent_studio { id name }`. -/
structure ParentStudio where
  id : Option String
  name : Option String

/-- `studio { id name image_path parent_studio { id name } }`. -/
structure Studio where
  id : Option String
  name : Option String
  image_path : Option String
  parent_studio : Option ParentStudio

/-- `performers { id name image_path }`. -/
structure Performer where
  id : Option String
  name : Option String
  image_path : Option String

/-- `groups { group { id name front_image_path } scene_index }`. -/
structure SGroup where
  id : Option String
  name : Option String
  front_image_path : Option String

structure GroupEntry where
  group : Option SGroup
  scene_index : Option ℤ

/-- `scene_markers { id title seconds primary_tag { name } }`. -/
structure Marker where
  id : Option String
  title : Option String
  seconds : Option ℚ
  primary_tag : Option STag

/-- `files { path basename duration width height video_codec audio_codec
frame_rate bit_rate size }`.  Floats are modelled as exact rationals. -/
structure StashFile where
  path : Option String
  basename : Option String
  duration : Option ℚ
  width : Option ℤ
  height : Option ℤ
  video_codec : Option String
  audio_codec : Option String
  frame_rate : Option ℚ
  bit_rate : Option ℤ
  size : Option ℤ

/-- A scene record as returned by the Stash `findScenes` query.  `id` is
accessed with `scene['id']` (never absent); every other field is
optional, matching the partially populated records the spec describes. -/
structure Scene where
  id : String
  code : Option String
  title : Option String
  date : Option String
  urls : List String
  rating100 : Option ℤ
  details : Option String
  director : Option String
  created_at : Option String
  tags : List STag
  studio : Option Studio
  performers : List Performer
  groups : List GroupEntry
  scene_markers : List Marker
  files : List StashFile

/-- The configuration the translator reads at module load:
`agent_base_url`, `stash_host` and `poster_mode`. -/
structure Config where
  agentBaseUrl : String
  stashHost : String
  posterMode : Bool

/-- The default configuration values of the source
(`http://127.0.0.1:7979` agent base, `http://192.168.1.71:9999` Stash). -/
def defaultConfig : Config :=
  { agentBaseUrl := "http://127.0.0.1:7979"
    stashHost := "http://192.168.1.71:9999"
    posterMode := false }

/-- Python `str.replace(c, rep)` for a single-character pattern:
substitute every occurrence, left to right. -/
def replace1 (c : Char) (rep : List Char) (l : List Char) : List Char :=
  l.flatMap (fun x => if x = c then rep else [x])

/-- `_sanitize_graphql_string`, character-list level: the source's four
sequential `str.replace` calls, in order backslash, double quote,
newline, carriage return. -/
def sanitizeChars (l : List Char) : List Char :=
  replace1 '\r' ['\\', 'r']
    (replace1 '\n' ['\\', 'n']
      (replace1 '"' ['\\', '"']
        (replace1 '\\' ['\\', '\\'] l)))

/-- `_sanitize_graphql_string`: escape characters that could break a
GraphQL string literal. -/
def _sanitize_graphql_string (s : String) : String :=
  String.mk (sanitizeChars s.data)

/-- Per-character escape table equivalent to the sequential replaces
(proved in `sanitizeChars_eq_flatMap`). -/
def escChar (c : Char) : List Char :=
  if c = '\\' then ['\\', '\\']
  else if c = '"' then ['\\', '"']
  else if c = '\n' then ['\\', 'n']
  else if c = '\r' then ['\\', 'r']
  else [c]

/-- The filename filter clause built by `query_stash_by_filename`:
`path: {value: "\"<escaped>\"", modifier: INCLUDES}`. -/
def filenameFilterClause (filename : String) : String :=
  "path: \x7bvalue: \"\\\"" ++ _sanitize_graphql_string filename ++
    "\\\"\", modifier: INCLUDES\x7d"

/-- The rating-key filter clause built by `query_stash_by_ratingKey`:
`id: {value: <sceneId>, modifier: EQUALS}`. -/
def ratingKeyFilterClause (sceneId : String) : String :=
  "id: \x7bvalue: " ++ sceneId ++ ", modifier: EQUALS\x7d"

/-- `re.search(r"-(\d+)$", ratingKey)`: the captured digit group is the
maximal trailing run of decimal digits, nonempty and preceded by a
literal `-`.  Character-list level. -/
def extractIdChars (l : List Char) : Option (List Char) :=
  match l.reverse.dropWhile Char.isDigit with
  | '-' :: _ =>
    if (l.reverse.takeWhile Char.isDigit).isEmpty then none
    else some (l.reverse.takeWhile Char.isDigit).reverse
  | _ => none

/-- The scene identifier extracted from a rating key's trailing
`-<digits>` suffix, `none` when the regex does not match. -/
def extract_rating_key_id (s : String) : Option String :=
  (extractIdChars s.data).map String.mk

/-- The frame-rate label of `parse_stash_response`: anchors checked in
source order with strict `< 0.5` tolerance, otherwise `int(fr)` followed
by `p`.  `59.94` and `60` share one branch. -/
def videoFrameRateLabel (fr : ℚ) : String :=
  if pyAbs (qsub fr (mkRat 23976 1000)) < mkRat 1 2 then "24p"
  else if pyAbs (qsub fr 24) < mkRat 1 2 then "24p"
  else if pyAbs (qsub fr 25) < mkRat 1 2 then "PAL"
  else if pyAbs (qsub fr (mkRat 2997 100)) < mkRat 1 2 then "NTSC"
  else if pyAbs (qsub fr 30) < mkRat 1 2 then "30p"
  else if pyAbs (qsub fr 50) < mkRat 1 2 then "50p"
  else if pyAbs (qsub fr (mkRat 5994 100)) < mkRat 1 2 ∨
      pyAbs (qsub fr 60) < mkRat 1 2 then "60p"
  else toString (ratTrunc fr) ++ "p"

/-- The ascending anchor list of the specification, each with its label. -/
def frAnchors : List (ℚ × String) :=
  [(mkRat 23976 1000, "24p"), (24, "24p"), (25, "PAL"),
   (mkRat 2997 100, "NTSC"), (30, "30p"), (50, "50p"),
   (mkRat 5994 100, "60p"), (60, "60p")]

/-- First anchor within strict `±0.5` of the rate, in list order. -/
def firstAnchorLabel (fr : ℚ) : List (ℚ × String) → Option String
  | [] => none
  | a :: rest =>
    if pyAbs (qsub fr a.1) < mkRat 1 2 then some a.2
    else firstAnchorLabel fr rest

/-- The specification's description of the frame-rate bucketing: the
first matching anchor in ascending order wins, otherwise the integer
part of the rate followed by `p`. -/
def frameRateLabelSpec (fr : ℚ) : String :=
  (firstAnchorLabel fr frAnchors).getD (toString (ratTrunc fr) ++ "p")

/-- The resolution label derived from the first file's height. -/
def videoResolutionLabel (height : ℤ) : String :=
  if 2160 ≤ height then "4k"
  else if 1080 ≤ height then "1080"
  else if 720 ≤ height then "720"
  else if 480 ≤ height then "480"
  else "sd"

/-- `POSTER_WIDTH = 600`. -/
def POSTER_WIDTH : ℤ := 600

/-- `POSTER_HEIGHT = 900`. -/
def POSTER_HEIGHT : ℤ := 900

/-- `scale = POSTER_WIDTH / src_w` of `_generate_poster_bytes`; `src_w`
is a PIL image width, a natural number. -/
def posterScale (srcW : ℕ) : ℚ := mkRat 600 srcW

/-- `scaled_h = int(src_h * scale)`: truncated scaled height. -/
def posterScaledHeight (srcW srcH : ℕ) : ℤ :=
  ratTrunc (qmul (srcH : ℚ) (posterScale srcW))

/-- `y_offset = (POSTER_HEIGHT - scaled_h) // 2` (Python floor division). -/
def posterYOffset (srcW srcH : ℕ) : ℤ :=
  Int.fdiv (POSTER_HEIGHT - posterScaledHeight srcW srcH) 2

/-- The opaque fill of the poster canvas, `Image.new("RGB", ..., (0,0,0))`. -/
def posterCanvasColor : ℤ × ℤ × ℤ := (0, 0, 0)

/-- Whether canvas row `y` lies in a letterbox bar (outside the pasted,
scaled source image) of the composed 600×900 poster. -/
def posterRowIsBar (srcW srcH : ℕ) (y : ℤ) : Bool :=
  decide (y < posterYOffset srcW srcH) ||
    decide (posterYOffset srcW srcH + posterScaledHeight srcW srcH ≤ y)

/-- Assoc-list lookup for the cache dictionary. -/
def lookupA {β : Type} : List (String × β) → String → Option β
  | [], _ => none
  | (k, v) :: rest, key => if k == key then some v else lookupA rest key

/-- Python `dict[key] = v`: replace in place when present, else append. -/
def setA {β : Type} (cache : List (String × β)) (key : String) (v : β) :
    List (String × β) :=
  if cache.any (fun kv => kv.1 == key) then
    cache.map (fun kv => if kv.1 == key then (key, v) else kv)
  else cache ++ [(key, v)]

/-- Python `dict.pop(key, None)`: remove the key if present. -/
def removeA {β : Type} (cache : List (String × β)) (key : String) :
    List (String × β) :=
  cache.filter (fun kv => !(kv.1 == key))

/-- `_cache_get`: return the cached value if the TTL is positive, the key
is present, and the entry has not expired; an expired entry is evicted.
The stored value type is generic, exactly as in the source (the pipeline
stores references to documents, modelled as store indices). -/
def _cache_get {β : Type} (ttl : ℤ) (now : ℚ)
    (cache : List (String × ℚ × β)) (key : String) :
    List (String × ℚ × β) × Option β :=
  if ttl ≤ 0 then (cache, none)
  else
    match lookupA cache key with
    | none => (cache, none)
    | some (ts, v) =>
      if (ttl : ℚ) < qsub now ts then (removeA cache key, none)
      else (cache, some v)

/-- `_cache_set`: store `(now, value)` when the TTL is positive, no-op
otherwise. -/
def _cache_set {β : Type} (ttl : ℤ) (now : ℚ)
    (cache : List (String × ℚ × β)) (key : String) (v : β) :
    List (String × ℚ × β) :=
  if 0 < ttl then setA cache key (now, v) else cache

/-- The artwork URL embedded for a scene: poster-render endpoint when
poster mode is on, screenshot proxy endpoint otherwise, both under this
agent's own base URL. -/
def sceneArtUrl (cfg : Config) (sceneId : String) : String :=
  if cfg.posterMode then
    cfg.agentBaseUrl ++ "/stash/scene/" ++ sceneId ++ "/poster"
  else
    cfg.agentBaseUrl ++ "/stash/scene/" ++ sceneId ++ "/screenshot"

/-- `scene.get("title") or scene.get("code") or ""`. -/
def sceneTitle (scene : Scene) : String :=
  strOrElse scene.title (strOrElse scene.code "")

/-- The `art`/`thumb` entries written first into every item. -/
def artSeg (cfg : Config) (sceneId : String) : Item :=
  [("art", PValue.str (sceneArtUrl cfg sceneId)),
   ("thumb", PValue.str (sceneArtUrl cfg sceneId))]

/-- The identifier entries `guid`, `key`, `ratingKey`, `type`. -/
def idSeg (sceneId : String) : Item :=
  [("guid", PValue.str ("plex://movie/stash-video-" ++ sceneId)),
   ("key", PValue.str ("/library/metadata/stash-video-" ++ sceneId)),
   ("ratingKey", PValue.str ("stash-video-" ++ sceneId)),
   ("type", PValue.str "movie")]

/-- The null-safe core entries `title`, `summary`,
`originallyAvailableAt` (the last stores `scene.get("date")` verbatim,
null included). -/
def coreSeg (scene : Scene) : Item :=
  [("title", PValue.str (sceneTitle scene)),
   ("summary", PValue.str (strOrElse scene.details "")),
   ("originallyAvailableAt", optStrVal scene.date)]

/-- `tagline`: the production code when non-empty and different from the
resolved title. -/
def taglineSeg (scene : Scene) : Item :=
  if strOrElse scene.code "" ≠ "" ∧ strOrElse scene.code "" ≠ sceneTitle scene
  then [("tagline", PValue.str (strOrElse scene.code ""))]
  else []

/-- `year`: `int(date_str[:4])` when the date string has at least four
characters and the slice parses; parse failure omits the field. -/
def yearSeg (scene : Scene) : Item :=
  if 4 ≤ (strOrElse scene.date "").data.length then
    match pyParseInt (String.mk ((strOrElse scene.date "").data.take 4)) with
    | some y => [("year", PValue.int y)]
    | none => []
  else []

/-- `addedAt`: epoch seconds of `datetime.fromisoformat(created_at)`
when the creation timestamp is truthy and parses; otherwise omitted. -/
def addedAtSeg (scene : Scene) : Item :=
  if strOrElse scene.created_at "" ≠ "" then
    match pyFromisoTimestamp (strOrElse scene.created_at "") with
    | some t => [("addedAt", PValue.int t)]
    | none => []
  else []

/-- Studio display name: `"<studio> (<parent>)"` when a parent studio
exists with a different non-empty name, else the studio name.  The
source's `studio.get("name", "")` is modelled by `getD ""` (backend
schema studio names are strings). -/
def studioDisplayName (st : Studio) : String :=
  let studioName := st.name.getD ""
  match st.parent_studio with
  | some p =>
    let parentName := p.name.getD ""
    if parentName ≠ "" ∧ parentName ≠ studioName then
      studioName ++ " (" ++ parentName ++ ")"
    else studioName
  | none => studioName

/-- `studio`: present whenever the scene carries a studio object. -/
def studioSeg (scene : Scene) : Item :=
  match scene.studio with
  | some st => [("studio", PValue.str (studioDisplayName st))]
  | none => []

/-- `rating`: present whenever `rating100` is not null (zero included);
`round(int(rating100) / 10.0, 1)` is the exact rational `rating100/10`,
which already has a single decimal digit. -/
def ratingSeg (scene : Scene) : Item :=
  match scene.rating100 with
  | some r => [("rating", PValue.rat (mkRat r 10))]
  | none => []

/-- `Director`: a single-entry tag list when the director is truthy. -/
def directorSeg (scene : Scene) : Item :=
  if strOrElse scene.director "" ≠ "" then
    [("Director",
      PValue.list [PValue.obj [("tag", PValue.str (strOrElse scene.director ""))]])]
  else []

/-- Tags with truthy names projected to `Genre` entries, in order. -/
def genreList (tags : List STag) : List PValue :=
  tags.filterMap (fun t =>
    if pyTruthyStr t.name then
      some (PValue.obj [("tag", PValue.str (t.name.getD ""))])
    else none)

/-- `Genre`: present exactly when at least one tag has a truthy name
(the source's `setdefault` inserts the key on first append). -/
def genreSeg (scene : Scene) : Item :=
  if (genreList scene.tags).isEmpty then []
  else [("Genre", PValue.list (genreList scene.tags))]

/-- One performer's `Role` entry: the name tag plus, when the performer
id is truthy, a thumbnail URL built from the Stash host. -/
def roleFields (cfg : Config) (p : Performer) : Item :=
  ("tag", PValue.str (p.name.getD "")) ::
    (if pyTruthyStr p.id then
      [("thumb",
        PValue.str (cfg.stashHost ++ "/performer/" ++ p.id.getD "" ++ "/image"))]
    else [])

/-- Performers with truthy names projected to `Role` entries, in order. -/
def roleList (cfg : Config) (ps : List Performer) : List PValue :=
  ps.filterMap (fun p =>
    if pyTruthyStr p.name then some (PValue.obj (roleFields cfg p)) else none)

/-- `Role`: present exactly when at least one performer has a truthy
name. -/
def roleSeg (cfg : Config) (scene : Scene) : Item :=
  if (roleList cfg scene.performers).isEmpty then []
  else [("Role", PValue.list (roleList cfg scene.performers))]

/-- Group memberships with a truthy group name projected to
`Collection` entries. -/
def collectionList (gs : List GroupEntry) : List PValue :=
  gs.filterMap (fun ge =>
    match ge.group with
    | some g =>
      if pyTruthyStr g.name then
        some (PValue.obj [("tag", PValue.str (g.name.getD ""))])
      else none
    | none => none)

/-- `Collection`: present exactly when at least one group entry has a
truthy group name. -/
def collectionSeg (scene : Scene) : Item :=
  if (collectionList scene.groups).isEmpty then []
  else [("Collection", PValue.list (collectionList scene.groups))]

/-- The sort key of `sorted(markers, key=lambda m: m.get("seconds", 0))`. -/
def markerKey (m : Marker) : ℚ := m.seconds.getD 0

/-- Insert a marker before the first element whose key is not strictly
smaller; with `sortMarkers` this realizes the unique stable ascending
order that Python's stable `sorted` produces. -/
def insertMarker (m : Marker) : List Marker → List Marker
  | [] => [m]
  | x :: xs =>
    if markerKey x < markerKey m then x :: insertMarker m xs
    else m :: x :: xs

/-- Stable ascending sort of markers by their seconds offset. -/
def sortMarkers : List Marker → List Marker
  | [] => []
  | m :: ms => insertMarker m (sortMarkers ms)

/-- Chapter title: the marker's own title, falling back to the primary
tag's name when the title is falsy and a primary tag exists. -/
def chapterTitle (m : Marker) : String :=
  let t := strOrElse m.title ""
  if t = "" then
    match m.primary_tag with
    | some pt => pt.name.getD ""
    | none => ""
  else t

/-- One chapter object: title tag, 1-based index, and the marker's
seconds offset converted to whole milliseconds (`int(sec * 1000)`). -/
def chapterObj (i : ℕ) (m : Marker) : PValue :=
  PValue.obj
    [("tag", PValue.str (chapterTitle m)),
     ("index", PValue.int ((i : ℤ) + 1)),
     ("startTimeOffset", PValue.int (ratTrunc (qmul (markerKey m) 1000)))]

/-- All markers, sorted, projected to chapter objects with sequential
1-based indices. -/
def chapterList (ms : List Marker) : List PValue :=
  (sortMarkers ms).enum.map (fun p => chapterObj p.1 p.2)

/-- `Chapter`: built when the marker list is nonempty (every marker
yields a chapter, so the inner nonemptiness re-check of the source
coincides with the outer one). -/
def chapterSeg (scene : Scene) : Item :=
  if scene.scene_markers.isEmpty then []
  else if (chapterList scene.scene_markers).isEmpty then []
  else [("Chapter", PValue.list (chapterList scene.scene_markers))]

/-- The `Part` entry fields from the first file: path and size, each
only when truthy. -/
def partFields (f : StashFile) : Item :=
  (if pyTruthyStr f.path then
    [("file", PValue.str (strOrElse f.path ""))]
  else []) ++
  (if pyTruthyInt f.size then [("size", PValue.int (f.size.getD 0))] else [])

/-- `duration` entry: `int(float(duration_s) * 1000)` whenever the
duration is not null (the `try` never fails on a JSON float). -/
def durationEntry (o : Option ℚ) : Item :=
  match o with
  | some d => [("duration", PValue.int (ratTrunc (qmul d 1000)))]
  | none => []

/-- `width` entry, written only for a truthy width. -/
def widthEntry (o : Option ℤ) : Item :=
  if pyTruthyInt o then [("width", PValue.int (o.getD 0))] else []

/-- `height` entry, written only for a truthy height. -/
def heightEntry (o : Option ℤ) : Item :=
  if pyTruthyInt o then [("height", PValue.int (o.getD 0))] else []

/-- `videoCodec` entry, written only for a truthy codec string. -/
def videoCodecEntry (o : Option String) : Item :=
  if pyTruthyStr o then [("videoCodec", PValue.str (strOrElse o ""))] else []

/-- `audioCodec` entry, written only for a truthy codec string. -/
def audioCodecEntry (o : Option String) : Item :=
  if pyTruthyStr o then [("audioCodec", PValue.str (strOrElse o ""))] else []

/-- `bitrate` entry, written only for a truthy bit rate. -/
def bitrateEntry (o : Option ℤ) : Item :=
  if pyTruthyInt o then [("bitrate", PValue.int (o.getD 0))] else []

/-- `videoFrameRate` entry, written only for a truthy frame rate. -/
def frameRateEntry (o : Option ℚ) : Item :=
  if pyTruthyQ o then
    [("videoFrameRate", PValue.str (videoFrameRateLabel (o.getD 0)))]
  else []

/-- `Part` entry, written only when the part dict is nonempty. -/
def partEntry (f : StashFile) : Item :=
  if (partFields f).isEmpty then []
  else [("Part", PValue.list [PValue.obj (partFields f)])]

/-- `videoResolution` entry, written only for a truthy height. -/
def videoResolutionEntry (o : Option ℤ) : Item :=
  if pyTruthyInt o then
    [("videoResolution", PValue.str (videoResolutionLabel (o.getD 0)))]
  else []

/-- The media-info dict built from the first file entry, in source
insertion order: duration, width, height, videoCodec, audioCodec,
bitrate, videoFrameRate, Part, videoResolution. -/
def mediaFields (f : StashFile) : Item :=
  durationEntry f.duration ++ widthEntry f.width ++ heightEntry f.height ++
    videoCodecEntry f.video_codec ++ audioCodecEntry f.audio_codec ++
    bitrateEntry f.bit_rate ++ frameRateEntry f.frame_rate ++
    partEntry f ++ videoResolutionEntry f.height

/-- Media info derived from the first file entry only: the top-level
`duration` key (written whenever the file's duration is not null) and
the `Media` key (written when the media dict is nonempty). -/
def mediaSeg (scene : Scene) : Item :=
  match scene.files with
  | [] => []
  | f :: _ =>
    durationEntry f.duration ++
    (if (mediaFields f).isEmpty then []
     else [("Media", PValue.list [PValue.obj (mediaFields f)])])

/-- The scene translator: one backend scene record to one Plex metadata
item, keys in the source's insertion order. -/
def translateScene (cfg : Config) (scene : Scene) : Item :=
  artSeg cfg scene.id ++ idSeg scene.id ++ coreSeg scene ++
    taglineSeg scene ++ yearSeg scene ++ addedAtSeg scene ++
    studioSeg scene ++ ratingSeg scene ++ directorSeg scene ++
    genreSeg scene ++ roleSeg cfg scene ++ collectionSeg scene ++
    chapterSeg scene ++ mediaSeg scene

/-- The Plex MediaContainer envelope around a list of metadata items. -/
structure MediaContainer where
  offset : ℤ
  totalSize : ℤ
  identifier : String
  size : ℤ
  Metadata : List Item

/-- The empty, well-formed envelope the handlers fall back to. -/
def emptyEnvelope : MediaContainer :=
  { offset := 0, totalSize := 0,
    identifier := "tv.plex.agents.custom.stash", size := 0, Metadata := [] }

/-- The container `parse_stash_response` builds from a nonempty scene
list: every scene translated, in backend order, sizes set to the list
length. -/
def buildContainer (cfg : Config) (scenes : List Scene) : MediaContainer :=
  { offset := 0
    totalSize := (scenes.length : ℤ)
    identifier := "tv.plex.agents.custom.stash"
    size := (scenes.length : ℤ)
    Metadata := scenes.map (translateScene cfg) }

/-- Process state: the `_cache` dict (fingerprint to timestamp and a
reference) together with the heap of documents those references alias.
Python stores object references in `_cache`; a handler that mutates a
returned document therefore mutates the cached one, which this explicit
store makes visible. -/
structure SysState where
  cache : List (String × ℚ × ℕ)
  store : List MediaContainer

/-- The state of a fresh process: empty cache, empty store. -/
def initState : SysState := { cache := [], store := [] }

/-- Dereference a document (all reachable references are in range). -/
def getStore (store : List MediaContainer) (ref : ℕ) : MediaContainer :=
  store.getD ref emptyEnvelope

/-- Replace the document a reference aliases (a Python in-place dict
mutation seen through every alias). -/
def setStore (store : List MediaContainer) (ref : ℕ)
    (doc : MediaContainer) : List MediaContainer :=
  store.set ref doc

/-- `parse_stash_response`: serve from cache when possible, otherwise
interpret the backend response — `none` models a failed request, a scene
list a parsed `findScenes` result.  An empty scene list is "no match":
nothing is built, nothing cached.  A nonempty list is translated into a
container which is cached and returned (as a reference, because the
Python function returns the very object it cached). -/
def parse_stash_response (cfg : Config) (ttl : ℤ) (now : ℚ)
    (st : SysState) (filter_clause : String)
    (backend : Option (List Scene)) : SysState × Option ℕ :=
  let key := "filter:" ++ filter_clause
  let got := _cache_get ttl now st.cache key
  match got.2 with
  | some ref => ({ st with cache := got.1 }, some ref)
  | none =>
    match backend with
    | none => ({ st with cache := got.1 }, none)
    | some scenes =>
      if scenes.isEmpty then ({ st with cache := got.1 }, none)
      else
        let doc := buildContainer cfg scenes
        let ref := st.store.length
        ({ cache := _cache_set ttl now got.1 key ref,
           store := st.store ++ [doc] }, some ref)

/-- `query_stash_by_filename`: falsy filename short-circuits to `None`;
otherwise query with the escaped-substring path filter. -/
def query_stash_by_filename (cfg : Config) (ttl : ℤ) (now : ℚ)
    (st : SysState) (filename : Option String)
    (backend : Option (List Scene)) : SysState × Option ℕ :=
  if pyTruthyStr filename then
    parse_stash_response cfg ttl now st
      (filenameFilterClause (filename.getD "")) backend
  else (st, none)

/-- `query_stash_by_ratingKey`: falsy key or no trailing `-<digits>`
suffix short-circuits to `None` without any backend query; otherwise
query by the extracted scene id. -/
def query_stash_by_ratingKey (cfg : Config) (ttl : ℤ) (now : ℚ)
    (st : SysState) (ratingKey : String)
    (backend : Option (List Scene)) : SysState × Option ℕ :=
  if ratingKey = "" then (st, none)
  else
    match extract_rating_key_id ratingKey with
    | none => (st, none)
    | some sceneId =>
      parse_stash_response cfg ttl now st (ratingKeyFilterClause sceneId)
        backend

/-- Python whitespace characters stripped by `str.strip()`. -/
def stripWS (l : List Char) : List Char :=
  ((l.dropWhile Char.isWhitespace).reverse.dropWhile Char.isWhitespace).reverse

/-- Split a character list on commas (Python `str.split(",")`). -/
def splitCommas (l : List Char) : List (List Char) :=
  match l with
  | [] => [[]]
  | c :: rest =>
    let parts := splitCommas rest
    if c = ',' then [] :: parts
    else
      match parts with
      | p :: ps => (c :: p) :: ps
      | [] => [[c]]

/-- The `excludeElements` set: split the comma-separated field (treating
a missing field as `""`), strip whitespace, keep nonempty names. -/
def parseExcludeElements (o : Option String) : List String :=
  (((splitCommas (o.getD "").data).map stripWS).filter
    (fun p => !p.isEmpty)).map String.mk

/-- `item.pop(element, None)` for every element of the exclusion set. -/
def stripItemKeys (ex : List String) (it : Item) : Item :=
  it.filter (fun kv => !(ex.contains kv.1))

/-- Strip the excluded fields from every item of a document, in place. -/
def stripDoc (ex : List String) (doc : MediaContainer) : MediaContainer :=
  { doc with Metadata := doc.Metadata.map (stripItemKeys ex) }

/-- `POST /library/metadata/matches`: query by filename; when a result
exists and exclusions were requested, pop those fields from every item
of the result — an in-place mutation of the very document the cache
aliases — then return the result, else the empty envelope. -/
def library_metadata_matches (cfg : Config) (ttl : ℤ) (now : ℚ)
    (st : SysState) (filename excludeElements : Option String)
    (backend : Option (List Scene)) : SysState × MediaContainer :=
  let ex := parseExcludeElements excludeElements
  let q := query_stash_by_filename cfg ttl now st filename backend
  match q.2 with
  | some ref =>
    let st2 :=
      if ex.isEmpty then q.1
      else { q.1 with
             store := setStore q.1.store ref (stripDoc ex (getStore q.1.store ref)) }
    (st2, getStore st2.store ref)
  | none => (q.1, emptyEnvelope)

/-- The background-upload job descriptor `get_metadata` may enqueue:
the numeric rating-key suffix and the first item's title. -/
abbrev UploadJob := String × String

/-- `GET /library/metadata/{ratingKey}`: query by rating key; when a
result exists, upload is enabled, the metadata list is nonempty, the
rating key has a numeric suffix and the first item's title is nonempty,
enqueue one detached upload job; return the result or the empty
envelope.  The job is returned alongside the response, never awaited. -/
def get_metadata (cfg : Config) (ttl : ℤ) (uploadEnabled : Bool)
    (now : ℚ) (st : SysState) (ratingKey : String)
    (backend : Option (List Scene)) :
    SysState × MediaContainer × Option UploadJob :=
  let q := query_stash_by_ratingKey cfg ttl now st ratingKey backend
  match q.2 with
  | some ref =>
    let doc := getStore q.1.store ref
    let job :=
      if uploadEnabled then
        match doc.Metadata with
        | [] => none
        | item :: _ =>
          let title := itemGetStrD item "title" ""
          match extract_rating_key_id ratingKey with
          | some sceneId => if title ≠ "" then some (sceneId, title) else none
          | none => none
      else none
    (q.1, doc, job)
  | none => (q.1, emptyEnvelope, none)

/-- A GraphQL string-literal scanner used to state injection safety,
with an explicit escaped-state flag: when the flag is set the next
character is consumed as escaped; an unescaped double quote closes the
literal; `none` means the literal never closes. -/
def scanLiteralState : Bool → List Char → Option (List Char)
  | _, [] => none
  | true, _ :: rest => scanLiteralState false rest
  | false, c :: rest =>
    if c = '\\' then scanLiteralState true rest
    else if c = '"' then some rest
    else scanLiteralState false rest

/-- Scan from inside a string literal (not currently escaped): returns
the remainder after the closing unescaped double quote. -/
def scanLiteral (l : List Char) : Option (List Char) :=
  scanLiteralState false l

/-- A scene record with only the mandatory identifier populated. -/
def blankScene (sid : String) : Scene :=
  { id := sid, code := none, title := none, date := none, urls := [],
    rating100 := none, details := none, director := none,
    created_at := none, tags := [], studio := none, performers := [],
    groups := [], scene_markers := [], files := [] }

/-- The spec's scenario scene: id 42, title Sample, rating100=85,
date 2021-05-03, one performer with an id. -/
def sampleScene : Scene :=
  { blankScene "42" with
    title := some "Sample"
    rating100 := some 85
    date := some "2021-05-03"
    performers := [{ id := some "3", name := some "Alice", image_path := none }] }

/-- A scene whose title resolves to the empty string (no title, no
production code). -/
def untitledScene : Scene := blankScene "7"

/-- A scene rated exactly zero (`rating100 = 0`, a falsy source value). -/
def zeroRatedScene : Scene := { blankScene "9" with rating100 := some 0 }

/-- A fully populated file entry (29.97 fps NTSC material). -/
def sampleFile : StashFile :=
  { path := some "/media/clip_01.mp4", basename := some "clip_01.mp4",
    duration := some 30, width := some 1920, height := some 1080,
    video_codec := some "h264", audio_codec := some "aac",
    frame_rate := some (mkRat 2997 100), bit_rate := some 5000000,
    size := some 123456 }

/-- A file entry whose numeric attributes are all zero and whose strings
are empty: every media attribute guard is falsy. -/
def zeroFile : StashFile :=
  { path := some "", basename := none, duration := none, width := some 0,
    height := some 0, video_codec := some "", audio_codec := some "",
    frame_rate := some 0, bit_rate := some 0, size := some 0 }

/-- Cache-aliasing scenario, step 1: first `matches` request for
`clip_01.mp4` with no exclusions; the translated document is cached. -/
def aliasStep1 : SysState × MediaContainer :=
  library_metadata_matches defaultConfig 300 0 initState
    (some "clip_01.mp4") none (some [sampleScene])

/-- Step 2: same filename one time unit later, a cache hit, with
`excludeElements=title`; the handler pops `title` from the items of the
very document the cache aliases. -/
def aliasStep2 : SysState × MediaContainer :=
  library_metadata_matches defaultConfig 300 1 aliasStep1.1
    (some "clip_01.mp4") (some "title") none

/-- Step 3: same filename again, no exclusions, still within the TTL;
served straight from the cache. -/
def aliasStep3 : SysState × MediaContainer :=
  library_metadata_matches defaultConfig 300 2 aliasStep2.1
    (some "clip_01.mp4") none none

/-- `metadata_list[0].get("title", "")` of `get_metadata`. -/
def firstTitle (doc : MediaContainer) : String :=
  match doc.Metadata with
  | [] => ""
  | it :: _ => itemGetStrD it "title" ""

/-- The thumbnail URL (if any) of one `Role` entry object. -/
def thumbOfRole (r : PValue) : List String :=
  match r with
  | PValue.obj fs =>
    match lookupP fs "thumb" with
    | some (PValue.str s) => [s]
    | _ => []
  | _ => []

/-- The thumbnail URLs of a list of `Role` entry objects, in order. -/
def roleObjThumbs (rs : List PValue) : List String :=
  rs.flatMap thumbOfRole

/-- The thumbnail URLs of an item's performer `Role` entries, in order. -/
def itemRoleThumbs (it : Item) : List String :=
  match lookupP it "Role" with
  | some (PValue.list rs) => roleObjThumbs rs
  | _ => []

/-- String prefix test (kernel-reducible). -/
def strStartsWith (s pre : String) : Bool :=
  pre.data.isPrefixOf s.data

/-- A scene whose only file is `zeroFile`. -/
def zeroFileScene : Scene := { blankScene "8" with files := [zeroFile] }

/-- A scene with both a title and a different production code, so the
translator writes a `tagline`. -/
def taggedScene : Scene :=
  { blankScene "11" with
    title := some "Feature"
    code := some "SC-11" }

/-! ## Theorems -/

theorem qadd_eq (a b : ℚ) : qadd a b = a + b := by
  have ha : ((a.den : ℚ)) ≠ 0 := by exact_mod_cast a.den_pos.ne'
  have hb : ((b.den : ℚ)) ≠ 0 := by exact_mod_cast b.den_pos.ne'
  unfold qadd
  rw [Rat.mkRat_eq_div]
  push_cast
  conv_rhs => rw [← Rat.num_div_den a, ← Rat.num_div_den b]
  rw [div_add_div _ _ ha hb]
  ring_nf

theorem qneg_eq (a : ℚ) : qneg a = -a := by
  have ha : ((a.den : ℚ)) ≠ 0 := by exact_mod_cast a.den_pos.ne'
  unfold qneg
  rw [Rat.mkRat_eq_div]
  push_cast
  conv_rhs => rw [← Rat.num_div_den a]
  field_simp

theorem qsub_eq (a b : ℚ) : qsub a b = a - b := by
  unfold qsub
  rw [qadd_eq, qneg_eq, sub_eq_add_neg]

theorem qmul_eq (a b : ℚ) : qmul a b = a * b := by
  have ha : ((a.den : ℚ)) ≠ 0 := by exact_mod_cast a.den_pos.ne'
  have hb : ((b.den : ℚ)) ≠ 0 := by exact_mod_cast b.den_pos.ne'
  unfold qmul
  rw [Rat.mkRat_eq_div]
  push_cast
  conv_rhs => rw [← Rat.num_div_den a, ← Rat.num_div_den b]
  rw [div_mul_div_comm]

theorem pyAbs_eq (q : ℚ) : pyAbs q = |q| := by
  unfold pyAbs
  rw [qneg_eq]
  by_cases h : q < 0
  · rw [if_pos h, abs_of_neg h]
  · rw [if_neg h, abs_of_nonneg (not_lt.mp h)]

theorem replace1_append (c : Char) (rep : List Char) (a b : List Char) :
    replace1 c rep (a ++ b) = replace1 c rep a ++ replace1 c rep b := by
  simp [replace1]

theorem sanitizeChars_append (a b : List Char) :
    sanitizeChars (a ++ b) = sanitizeChars a ++ sanitizeChars b := by
  simp [sanitizeChars, replace1_append]

theorem sanitizeChars_singleton (c : Char) : sanitizeChars [c] = escChar c := by
  by_cases h1 : c = '\\'
  · subst h1; decide
  by_cases h2 : c = '"'
  · subst h2; decide
  by_cases h3 : c = '\n'
  · subst h3; decide
  by_cases h4 : c = '\r'
  · subst h4; decide
  simp [sanitizeChars, replace1, escChar, h1, h2, h3, h4]

theorem sanitizeChars_cons (c : Char) (l : List Char) :
    sanitizeChars (c :: l) = escChar c ++ sanitizeChars l := by
  have h : (c :: l) = [c] ++ l := rfl
  rw [h, sanitizeChars_append, sanitizeChars_singleton]

theorem sanitizeChars_eq_flatMap (l : List Char) :
    sanitizeChars l = l.flatMap escChar := by
  induction l with
  | nil => rfl
  | cons c l ih => rw [sanitizeChars_cons, ih]; simp

theorem scanLiteral_sanitized (l rest : List Char) :
    scanLiteral (sanitizeChars l ++ '"' :: rest) = some rest := by
  induction l with
  | nil => rfl
  | cons c l ih =>
    rw [sanitizeChars_cons, List.append_assoc]
    by_cases h1 : c = '\\'
    · subst h1; exact ih
    by_cases h2 : c = '"'
    · subst h2; exact ih
    by_cases h3 : c = '\n'
    · subst h3; exact ih
    by_cases h4 : c = '\r'
    · subst h4; exact ih
    · show scanLiteralState false
        (escChar c ++ (sanitizeChars l ++ '"' :: rest)) = some rest
      rw [show escChar c = [c] by simp [escChar, h1, h2, h3, h4]]
      show scanLiteralState false
        (c :: (sanitizeChars l ++ '"' :: rest)) = some rest
      rw [scanLiteralState]
      rw [if_neg h1, if_neg h2]
      exact ih

theorem sanitizeChars_no_raw_newline (l : List Char) (c : Char)
    (hc : c ∈ sanitizeChars l) : c ≠ '\n' ∧ c ≠ '\r' := by
  rw [sanitizeChars_eq_flatMap] at hc
  rw [List.mem_flatMap] at hc
  obtain ⟨a, _, hca⟩ := hc
  unfold escChar at hca
  split_ifs at hca with h1 h2 h3 h4 <;> simp at hca <;>
    first
    | (rcases hca with h | h <;> subst h <;> exact ⟨by decide, by decide⟩)
    | (subst hca; exact ⟨by decide, by decide⟩)
    | (subst hca; exact ⟨h3, h4⟩)

/-- C9: every filename interpolated into the backend query is escaped —
backslash doubled, double quote backslash-prefixed, newline and carriage
return replaced by their two-character escape sequences, all other
characters kept — so the enclosing GraphQL string literal can only end
at the intended closing quote (no early termination, no injected
clauses, no raw line breaks), and the escaped value is wrapped in a
quoted `INCLUDES` (case-sensitive substring) path filter. -/
theorem library_metadata_matches_escapes_filenames :
    (∀ l : List Char, sanitizeChars l = l.flatMap escChar) ∧
    escChar '\\' = ['\\', '\\'] ∧
    escChar '"' = ['\\', '"'] ∧
    escChar '\n' = ['\\', 'n'] ∧
    escChar '\r' = ['\\', 'r'] ∧
    (∀ c : Char, c ≠ '\\' → c ≠ '"' → c ≠ '\n' → c ≠ '\r' →
      escChar c = [c]) ∧
    (∀ l rest : List Char,
      scanLiteral (sanitizeChars l ++ '"' :: rest) = some rest) ∧
    (∀ (l : List Char) (c : Char),
      c ∈ sanitizeChars l → c ≠ '\n' ∧ c ≠ '\r') ∧
    (∀ fn : String, filenameFilterClause fn =
      "path: \x7bvalue: \"\\\"" ++ _sanitize_graphql_string fn ++
        "\\\"\", modifier: INCLUDES\x7d") ∧
    (∀ cfg ttl now st fn backend, pyTruthyStr (some fn) = true →
      query_stash_by_filename cfg ttl now st (some fn) backend =
        parse_stash_response cfg ttl now st (filenameFilterClause fn)
          backend) := by
  refine ⟨sanitizeChars_eq_flatMap, by decide, by decide, by decide,
    by decide, ?_, scanLiteral_sanitized, sanitizeChars_no_raw_newline,
    fun fn => rfl, ?_⟩
  · intro c h1 h2 h3 h4
    simp [escChar, h1, h2, h3, h4]
  · intro cfg ttl now st fn backend hfn
    simp [query_stash_by_filename, hfn]

theorem library_metadata_matches_escapes_filenames_witness :
    (('x' ≠ '\\') ∧ ('x' ≠ '"') ∧ ('x' ≠ '\n') ∧ ('x' ≠ '\r')) ∧
    escChar 'x' = ['x'] ∧
    pyTruthyStr (some "clip_01.mp4") = true ∧
    query_stash_by_filename defaultConfig 300 0 initState
        (some "clip_01.mp4") none =
      parse_stash_response defaultConfig 300 0 initState
        (filenameFilterClause "clip_01.mp4") none :=
  ⟨⟨by decide, by decide, by decide, by decide⟩,
    library_metadata_matches_escapes_filenames.2.2.2.2.2.1 'x'
      (by decide) (by decide) (by decide) (by decide),
    by decide,
    library_metadata_matches_escapes_filenames.2.2.2.2.2.2.2.2.2
      defaultConfig 300 0 initState "clip_01.mp4" none (by decide)⟩

theorem takeWhile_all_append {p : Char → Bool} (l1 : List Char) (x : Char)
    (l2 : List Char) (h1 : ∀ c ∈ l1, p c = true) (h2 : p x = false) :
    (l1 ++ x :: l2).takeWhile p = l1 ∧ (l1 ++ x :: l2).dropWhile p = x :: l2 := by
  induction l1 with
  | nil => simp [List.takeWhile_cons, List.dropWhile_cons, h2]
  | cons a l1 ih =>
    have ha : p a = true := h1 a (List.mem_cons_self a l1)
    have ih2 := ih (fun c hc => h1 c (List.mem_cons_of_mem a hc))
    simp only [List.cons_append, List.takeWhile_cons, List.dropWhile_cons, ha,
      if_true]
    exact ⟨by rw [ih2.1], by rw [ih2.2]⟩

theorem extractIdChars_iff (l ds : List Char) :
    extractIdChars l = some ds ↔
      ∃ p : List Char, l = p ++ '-' :: ds ∧ ds ≠ [] ∧
        ds.all Char.isDigit = true := by
  constructor
  · intro h
    unfold extractIdChars at h
    split at h
    · next tail heq =>
      split at h
      · exact absurd h (by simp)
      · next hne =>
        have hds : ds = (l.reverse.takeWhile Char.isDigit).reverse := by
          injection h with h2
          exact h2.symm
        have hsplit : l.reverse.takeWhile Char.isDigit ++
            l.reverse.dropWhile Char.isDigit = l.reverse :=
          List.takeWhile_append_dropWhile Char.isDigit l.reverse
        rw [heq] at hsplit
        refine ⟨tail.reverse, ?_, ?_, ?_⟩
        · have h0 : l = (l.reverse).reverse := (List.reverse_reverse l).symm
          rw [h0, ← hsplit]
          rw [hds]
          simp
        · intro hcon
          apply hne
          rw [hds] at hcon
          have hz : List.takeWhile Char.isDigit l.reverse = [] := by
            simpa using congrArg List.reverse hcon
          rw [hz]
          rfl
        · rw [hds]
          rw [List.all_eq_true]
          intro c hc
          rw [List.mem_reverse] at hc
          exact List.mem_takeWhile_imp hc
    · exact absurd h (by simp)
  · rintro ⟨p, hl, hne, hdig⟩
    have hall : ∀ c ∈ ds.reverse, Char.isDigit c = true := by
      intro c hc
      rw [List.mem_reverse] at hc
      rw [List.all_eq_true] at hdig
      exact hdig c hc
    have hdash : Char.isDigit '-' = false := by decide
    have hrev : l.reverse = ds.reverse ++ '-' :: p.reverse := by
      rw [hl]
      simp
    have htake := (takeWhile_all_append ds.reverse '-' p.reverse hall hdash).1
    have hdrop := (takeWhile_all_append ds.reverse '-' p.reverse hall hdash).2
    unfold extractIdChars
    rw [hrev, htake, hdrop]
    have hemp : ds.reverse.isEmpty = false := by
      cases hrds : ds.reverse with
      | nil => exact absurd (by simpa using congrArg List.reverse hrds) hne
      | cons a as => rfl
    simp [hemp]

theorem extract_rating_key_id_iff (s d : String) :
    extract_rating_key_id s = some d ↔
      ∃ p : String, s = p ++ "-" ++ d ∧ d ≠ "" ∧
        d.data.all Char.isDigit = true := by
  constructor
  · intro h
    unfold extract_rating_key_id at h
    rcases hopt : extractIdChars s.data with _ | ds
    · rw [hopt] at h; exact absurd h (by simp)
    · rw [hopt] at h
      simp at h
      obtain ⟨p, hl, hne, hdig⟩ := (extractIdChars_iff s.data ds).mp hopt
      refine ⟨String.mk p, ?_, ?_, ?_⟩
      · apply String.ext
        rw [String.data_append, String.data_append]
        rw [show (String.mk p).data = p from rfl,
          show ("-" : String).data = ['-'] from rfl, List.append_assoc,
          List.singleton_append]
        rw [← h]
        exact hl
      · intro hcon
        rw [← h] at hcon
        exact hne (congrArg String.data hcon)
      · rw [← h]
        exact hdig
  · rintro ⟨p, hs, hne, hdig⟩
    have hl : s.data = p.data ++ '-' :: d.data := by
      rw [hs, String.data_append, String.data_append]
      rw [show ("-" : String).data = ['-'] from rfl, List.append_assoc]
      rfl
    have hchars : extractIdChars s.data = some d.data := by
      rw [extractIdChars_iff]
      refine ⟨p.data, hl, ?_, hdig⟩
      intro hcon
      exact hne (String.ext hcon)
    unfold extract_rating_key_id
    rw [hchars]
    rfl

/-- C8: the scene identifier queried for a rating key is exactly the
decimal-digit sequence of the key's trailing `-<digits>` suffix
(`stash-video-42` yields `42`); a key with no such suffix issues no
backend query at all — the lookup short-circuits to `None` regardless of
what the backend would answer — and `GET /library/metadata/{ratingKey}`
surfaces that as the empty envelope rather than an error. -/
theorem query_stash_by_ratingKey_extracts_suffix :
    (∀ s d : String, extract_rating_key_id s = some d ↔
      ∃ p : String, s = p ++ "-" ++ d ∧ d ≠ "" ∧
        d.data.all Char.isDigit = true) ∧
    extract_rating_key_id "stash-video-42" = some "42" ∧
    extract_rating_key_id "not-a-video" = none ∧
    (∀ cfg ttl now st rk sid backend, extract_rating_key_id rk = some sid →
      query_stash_by_ratingKey cfg ttl now st rk backend =
        parse_stash_response cfg ttl now st (ratingKeyFilterClause sid)
          backend) ∧
    (∀ cfg ttl now st rk backend, extract_rating_key_id rk = none →
      query_stash_by_ratingKey cfg ttl now st rk backend = (st, none)) ∧
    (∀ cfg ttl uploadEnabled now st rk backend,
      extract_rating_key_id rk = none →
      (get_metadata cfg ttl uploadEnabled now st rk backend).2.1 =
        emptyEnvelope) := by
  refine ⟨extract_rating_key_id_iff, by decide, by decide, ?_, ?_, ?_⟩
  · intro cfg ttl now st rk sid backend hex
    have hrk : ¬(rk = "") := by
      intro hcon
      subst hcon
      have hn : extract_rating_key_id "" = none := by decide
      rw [hn] at hex
      exact Option.noConfusion hex
    unfold query_stash_by_ratingKey
    rw [if_neg hrk, hex]
  · intro cfg ttl now st rk backend hex
    unfold query_stash_by_ratingKey
    by_cases hrk : rk = ""
    · rw [if_pos hrk]
    · rw [if_neg hrk, hex]
  · intro cfg ttl uploadEnabled now st rk backend hex
    unfold get_metadata
    have hq : query_stash_by_ratingKey cfg ttl now st rk backend =
        (st, none) := by
      unfold query_stash_by_ratingKey
      by_cases hrk : rk = ""
      · rw [if_pos hrk]
      · rw [if_neg hrk, hex]
    rw [hq]

theorem query_stash_by_ratingKey_extracts_suffix_witness :
    extract_rating_key_id "stash-video-42" = some "42" ∧
    ("stash-video-42" : String) = "stash-video" ++ "-" ++ "42" ∧
    extract_rating_key_id "not-a-video" = none ∧
    query_stash_by_ratingKey defaultConfig 300 0 initState "stash-video-42"
        none =
      parse_stash_response defaultConfig 300 0 initState
        (ratingKeyFilterClause "42") none ∧
    query_stash_by_ratingKey defaultConfig 300 0 initState "not-a-video"
        (some [sampleScene]) = (initState, none) ∧
    (get_metadata defaultConfig 300 true 0 initState "not-a-video"
        (some [sampleScene])).2.1 = emptyEnvelope :=
  ⟨by decide, by decide, by decide,
    query_stash_by_ratingKey_extracts_suffix.2.2.2.1 defaultConfig 300 0
      initState "stash-video-42" "42" none (by decide),
    query_stash_by_ratingKey_extracts_suffix.2.2.2.2.1 defaultConfig 300 0
      initState "not-a-video" (some [sampleScene]) (by decide),
    query_stash_by_ratingKey_extracts_suffix.2.2.2.2.2 defaultConfig 300
      true 0 initState "not-a-video" (some [sampleScene]) (by decide)⟩

theorem lookupP_append_right (a b : Item) (k : String)
    (h : lookupP a k = none) : lookupP (a ++ b) k = lookupP b k := by
  induction a with
  | nil => rfl
  | cons kv rest ih =>
    obtain ⟨k1, v1⟩ := kv
    have hh : (if (k1 == k) = true then some v1 else lookupP rest k)
        = none := h
    rw [List.cons_append]
    show (if (k1 == k) = true then some v1 else lookupP (rest ++ b) k)
      = lookupP b k
    by_cases hk : (k1 == k) = true
    · rw [if_pos hk] at hh; exact Option.noConfusion hh
    · rw [if_neg hk] at hh
      rw [if_neg hk]
      exact ih hh

theorem lookupP_append_left (a b : Item) (k : String) (v : PValue)
    (h : lookupP a k = some v) : lookupP (a ++ b) k = some v := by
  induction a with
  | nil => exact Option.noConfusion h
  | cons kv rest ih =>
    obtain ⟨k1, v1⟩ := kv
    have hh : (if (k1 == k) = true then some v1 else lookupP rest k)
        = some v := h
    rw [List.cons_append]
    show (if (k1 == k) = true then some v1 else lookupP (rest ++ b) k)
      = some v
    by_cases hk : (k1 == k) = true
    · rw [if_pos hk] at hh ⊢; exact hh
    · rw [if_neg hk] at hh
      rw [if_neg hk]
      exact ih hh

theorem hasKeyB_append (a b : Item) (k : String) :
    hasKeyB (a ++ b) k = (hasKeyB a k || hasKeyB b k) := by
  simp [hasKeyB]

theorem frameRateLabel_eq_spec (fr : ℚ) :
    videoFrameRateLabel fr = frameRateLabelSpec fr := by
  unfold videoFrameRateLabel frameRateLabelSpec frAnchors
  simp only [firstAnchorLabel]
  split_ifs <;> simp_all [Option.getD]

theorem frameRateLabel_fixed_set (fr : ℚ) :
    videoFrameRateLabel fr = "24p" ∨ videoFrameRateLabel fr = "PAL" ∨
    videoFrameRateLabel fr = "NTSC" ∨ videoFrameRateLabel fr = "30p" ∨
    videoFrameRateLabel fr = "50p" ∨ videoFrameRateLabel fr = "60p" ∨
    videoFrameRateLabel fr = toString (ratTrunc fr) ++ "p" := by
  unfold videoFrameRateLabel
  split_ifs <;> simp

theorem lookupP_durationEntry_ne (o : Option ℚ) (k : String)
    (h : ("duration" == k) = false) : lookupP (durationEntry o) k = none := by
  unfold durationEntry
  cases o <;> simp [lookupP, h]

theorem lookupP_mediaFields_frameRate (f : StashFile)
    (h : pyTruthyQ f.frame_rate = true) :
    lookupP (mediaFields f) "videoFrameRate" =
      some (PValue.str (videoFrameRateLabel (f.frame_rate.getD 0))) := by
  unfold mediaFields
  simp only [List.append_assoc]
  rw [lookupP_append_right _ _ _ (lookupP_durationEntry_ne _ _ (by decide))]
  rw [lookupP_append_right _ _ _
    (by unfold widthEntry; split <;> simp [lookupP])]
  rw [lookupP_append_right _ _ _
    (by unfold heightEntry; split <;> simp [lookupP])]
  rw [lookupP_append_right _ _ _
    (by unfold videoCodecEntry; split <;> simp [lookupP])]
  rw [lookupP_append_right _ _ _
    (by unfold audioCodecEntry; split <;> simp [lookupP])]
  rw [lookupP_append_right _ _ _
    (by unfold bitrateEntry; split <;> simp [lookupP])]
  unfold frameRateEntry
  rw [h]
  simp [lookupP]

/-- C2 (amended): the translator's frame-rate label checks the anchors
23.976, 24, 25, 29.97, 30, 50, 59.94, 60 in ascending order with a
strict ±0.5 tolerance, the first match winning; where adjacent windows
overlap (29.97/30, 23.976/24, 59.94/60) an exact midpoint resolves to
the lower anchor (29.985 → NTSC); any rate matching no anchor — the
claim's 27.5 midpoint included — falls through to the truncated-integer
fallback label, and the result is always one of the six anchor labels or
such a fallback. -/
theorem parse_stash_response_frame_rate_label :
    (∀ fr : ℚ, videoFrameRateLabel fr = frameRateLabelSpec fr) ∧
    (∀ fr : ℚ,
      videoFrameRateLabel fr = "24p" ∨ videoFrameRateLabel fr = "PAL" ∨
      videoFrameRateLabel fr = "NTSC" ∨ videoFrameRateLabel fr = "30p" ∨
      videoFrameRateLabel fr = "50p" ∨ videoFrameRateLabel fr = "60p" ∨
      videoFrameRateLabel fr = toString (ratTrunc fr) ++ "p") ∧
    videoFrameRateLabel (mkRat 29985 1000) = "NTSC" ∧
    videoFrameRateLabel (mkRat 55 2) = "27p" ∧
    (∀ f : StashFile, pyTruthyQ f.frame_rate = true →
      lookupP (mediaFields f) "videoFrameRate" =
        some (PValue.str (videoFrameRateLabel (f.frame_rate.getD 0)))) :=
  ⟨frameRateLabel_eq_spec, frameRateLabel_fixed_set, by decide, by decide,
    lookupP_mediaFields_frameRate⟩

theorem parse_stash_response_frame_rate_label_witness :
    pyTruthyQ sampleFile.frame_rate = true ∧
    lookupP (mediaFields sampleFile) "videoFrameRate" =
      some (PValue.str (videoFrameRateLabel (sampleFile.frame_rate.getD 0))) :=
  ⟨by decide,
    parse_stash_response_frame_rate_label.2.2.2.2 sampleFile (by decide)⟩

/-- C2, counterexample to the claim as stated: a rate of exactly 27.5 —
the midpoint between the anchors 25 and 30 — does not resolve to the
lower anchor's bucket (25 gives "PAL"); it matches no anchor window and
falls to the integer fallback "27p". -/
theorem frame_rate_midpoint_counterexample :
    videoFrameRateLabel (mkRat 55 2) = "27p" ∧
    videoFrameRateLabel 25 = "PAL" ∧
    videoFrameRateLabel (mkRat 55 2) ≠ videoFrameRateLabel 25 := by
  refine ⟨by decide, by decide, ?_⟩
  intro h
  have h1 : videoFrameRateLabel (mkRat 55 2) = "27p" := by decide
  have h2 : videoFrameRateLabel 25 = "PAL" := by decide
  rw [h1, h2] at h
  exact absurd h (by decide)

theorem ratTrunc_eq_floor_of_nonneg (q : ℚ) (h : 0 ≤ q) :
    ratTrunc q = ⌊q⌋ := by
  unfold ratTrunc
  rw [Int.tdiv_eq_ediv (Rat.num_nonneg.mpr h) (Int.ofNat_nonneg q.den)]
  conv_rhs => rw [← Rat.num_div_den q]
  rw [Rat.floor_intCast_div_natCast]

/-- C3 (amended): the poster renderer scales the source uniformly to
width 600 — scaled height `int(srcH * 600/srcW)` — and pastes it at the
centred floor offset on an opaque black 600×900 canvas, the two bars
differing by at most one pixel; a 1920×1080 source scales to 600×337
(1080·600/1920 = 337.5, truncated), leaving a 281-pixel bar on top and a
282-pixel bar at the bottom. -/
theorem generate_poster_letterbox_geometry :
    (∀ srcW : ℕ, 0 < srcW → posterScale srcW = 600 / (srcW : ℚ)) ∧
    (∀ srcW srcH : ℕ, 0 < srcW →
      posterScaledHeight srcW srcH = ⌊(srcH : ℚ) * (600 / (srcW : ℚ))⌋) ∧
    (∀ srcW srcH : ℕ,
      posterYOffset srcW srcH +
          (POSTER_HEIGHT - posterYOffset srcW srcH -
            posterScaledHeight srcW srcH) +
          posterScaledHeight srcW srcH = POSTER_HEIGHT ∧
      0 ≤ (POSTER_HEIGHT - posterYOffset srcW srcH -
            posterScaledHeight srcW srcH) - posterYOffset srcW srcH ∧
      (POSTER_HEIGHT - posterYOffset srcW srcH -
            posterScaledHeight srcW srcH) - posterYOffset srcW srcH ≤ 1) ∧
    POSTER_WIDTH = 600 ∧ POSTER_HEIGHT = 900 ∧
    posterCanvasColor = (0, 0, 0) ∧
    posterScaledHeight 1920 1080 = 337 ∧
    posterYOffset 1920 1080 = 281 ∧
    POSTER_HEIGHT - posterYOffset 1920 1080 - posterScaledHeight 1920 1080
      = 282 ∧
    (∀ y : ℤ, 0 ≤ y → y < 900 →
      (posterRowIsBar 1920 1080 y = true ↔ y < 281 ∨ 618 ≤ y)) := by
  have hscale : ∀ srcW : ℕ, 0 < srcW →
      posterScale srcW = 600 / (srcW : ℚ) := by
    intro w hw
    unfold posterScale
    rw [Rat.mkRat_eq_div]
    norm_num
  refine ⟨hscale, ?_, ?_, rfl, rfl, rfl, by decide, by decide, by decide, ?_⟩
  · intro w h hw
    unfold posterScaledHeight
    rw [hscale w hw, qmul_eq]
    apply ratTrunc_eq_floor_of_nonneg
    positivity
  · intro w h
    refine ⟨by ring, ?_, ?_⟩
    · unfold posterYOffset
      have hfd := Int.fmod_add_fdiv
        (POSTER_HEIGHT - posterScaledHeight w h) 2
      have hge := Int.fmod_nonneg'
        (POSTER_HEIGHT - posterScaledHeight w h) (by norm_num : (0:ℤ) < 2)
      omega
    · unfold posterYOffset
      have hfd := Int.fmod_add_fdiv
        (POSTER_HEIGHT - posterScaledHeight w h) 2
      have hlt := Int.fmod_lt_of_pos
        (POSTER_HEIGHT - posterScaledHeight w h) (by norm_num : (0:ℤ) < 2)
      omega
  · intro y h0 h900
    unfold posterRowIsBar
    have h1 : posterYOffset 1920 1080 = 281 := by decide
    have h2 : posterScaledHeight 1920 1080 = 337 := by decide
    rw [h1, h2]
    constructor
    · intro h
      rcases Bool.or_eq_true_iff.mp h with h | h
      · exact Or.inl (of_decide_eq_true h)
      · have h2 := of_decide_eq_true h
        omega
    · intro h
      rcases h with h | h
      · exact Bool.or_eq_true_iff.mpr (Or.inl (decide_eq_true h))
      · exact Bool.or_eq_true_iff.mpr (Or.inr (decide_eq_true (by omega)))

theorem generate_poster_letterbox_geometry_witness :
    0 < (1920 : ℕ) ∧
    posterScale 1920 = 600 / ((1920 : ℕ) : ℚ) ∧
    posterScaledHeight 1920 1080 = ⌊((1080 : ℕ) : ℚ) * (600 / ((1920 : ℕ) : ℚ))⌋ ∧
    (0 ≤ (5 : ℤ) ∧ (5 : ℤ) < 900 ∧
      (posterRowIsBar 1920 1080 5 = true ↔ (5 : ℤ) < 281 ∨ 618 ≤ (5 : ℤ))) :=
  ⟨by decide,
    generate_poster_letterbox_geometry.1 1920 (by decide),
    generate_poster_letterbox_geometry.2.1 1920 1080 (by decide),
    by decide, by decide,
    generate_poster_letterbox_geometry.2.2.2.2.2.2.2.2.2 5 (by decide)
      (by decide)⟩

/-- C3, counterexample to the claim as stated: for a 1920×1080 source
the scaled height is 337, not 338 (the float 337.5 is truncated), so the
letterbox bars are 281 and 282 pixels, not 281 on both sides. -/
theorem poster_letterbox_counterexample :
    posterScaledHeight 1920 1080 = 337 ∧
    ¬(posterScaledHeight 1920 1080 = 338) ∧
    posterYOffset 1920 1080 = 281 ∧
    POSTER_HEIGHT - posterYOffset 1920 1080 - posterScaledHeight 1920 1080
      = 282 ∧
    ¬(POSTER_HEIGHT - posterYOffset 1920 1080 -
        posterScaledHeight 1920 1080 = 281) := by
  refine ⟨by decide, by decide, by decide, by decide, by decide⟩

theorem lookupA_not_mem {β : Type} (cache : List (String × β)) (k : String)
    (h : cache.any (fun kv => kv.1 == k) = false) : lookupA cache k = none := by
  induction cache with
  | nil => rfl
  | cons kv rest ih =>
    obtain ⟨k1, v1⟩ := kv
    rw [List.any_cons, Bool.or_eq_false_iff] at h
    unfold lookupA
    rw [h.1]
    simp only [Bool.false_eq_true, if_false]
    exact ih h.2

theorem lookupA_setA_self {β : Type} (cache : List (String × β))
    (k : String) (v : β) : lookupA (setA cache k v) k = some v := by
  unfold setA
  by_cases hany : cache.any (fun kv => kv.1 == k) = true
  · rw [if_pos hany]
    induction cache with
    | nil => exact absurd hany (by simp)
    | cons kv rest ih =>
      obtain ⟨k1, v1⟩ := kv
      rw [List.any_cons] at hany
      by_cases hk : (k1 == k) = true
      · simp only [List.map_cons, hk, if_true]
        unfold lookupA
        simp
      · rw [Bool.not_eq_true] at hk
        rw [hk] at hany
        simp only [Bool.false_or] at hany
        simp only [List.map_cons, hk]
        simp only [Bool.false_eq_true, if_false]
        unfold lookupA
        rw [hk]
        simp only [Bool.false_eq_true, if_false]
        exact ih hany
  · rw [if_neg hany]
    rw [Bool.not_eq_true] at hany
    induction cache with
    | nil =>
      unfold lookupA
      simp
    | cons kv rest ih =>
      obtain ⟨k1, v1⟩ := kv
      rw [List.any_cons, Bool.or_eq_false_iff] at hany
      rw [List.cons_append]
      unfold lookupA
      rw [hany.1]
      simp only [Bool.false_eq_true, if_false]
      exact ih hany.2

theorem lookupA_removeA_self {β : Type} (cache : List (String × β))
    (k : String) : lookupA (removeA cache k) k = none := by
  unfold removeA
  induction cache with
  | nil => rfl
  | cons kv rest ih =>
    obtain ⟨k1, v1⟩ := kv
    by_cases hk : (k1 == k) = true
    · simp only [List.filter_cons, hk, Bool.not_true]
      simp only [Bool.false_eq_true, if_false]
      exact ih
    · rw [Bool.not_eq_true] at hk
      simp only [List.filter_cons, hk, Bool.not_false, if_true]
      unfold lookupA
      rw [hk]
      simp only [Bool.false_eq_true, if_false]
      exact ih

/-- C4: with a positive TTL, `put(f, d)` at `t1` followed by `get(f)` at
`t2` with `t2 - t1 ≤ TTL` returns `d` unchanged; with `t2 - t1 > TTL`
the `get` returns absent and evicts the entry; with TTL ≤ 0 every `get`
returns absent without touching the cache and every `put` is a no-op. -/
theorem cache_ttl_roundtrip :
    (∀ (β : Type) (ttl : ℤ) (t1 t2 : ℚ) (cache : List (String × ℚ × β))
      (f : String) (d : β), 0 < ttl → qsub t2 t1 ≤ (ttl : ℚ) →
      (_cache_get ttl t2 (_cache_set ttl t1 cache f d) f).2 = some d) ∧
    (∀ (β : Type) (ttl : ℤ) (t1 t2 : ℚ) (cache : List (String × ℚ × β))
      (f : String) (d : β), 0 < ttl → (ttl : ℚ) < qsub t2 t1 →
      (_cache_get ttl t2 (_cache_set ttl t1 cache f d) f).2 = none ∧
      lookupA (_cache_get ttl t2 (_cache_set ttl t1 cache f d) f).1 f
        = none) ∧
    (∀ (β : Type) (ttl : ℤ) (now : ℚ) (cache : List (String × ℚ × β))
      (f : String), ttl ≤ 0 → _cache_get ttl now cache f = (cache, none)) ∧
    (∀ (β : Type) (ttl : ℤ) (now : ℚ) (cache : List (String × ℚ × β))
      (f : String) (d : β), ttl ≤ 0 →
      _cache_set ttl now cache f d = cache) := by
  refine ⟨?_, ?_, ?_, ?_⟩
  · intro β ttl t1 t2 cache f d hpos hfresh
    unfold _cache_get _cache_set
    rw [if_pos hpos, if_neg (not_le.mpr hpos)]
    simp only [lookupA_setA_self]
    rw [if_neg (not_lt.mpr hfresh)]
  · intro β ttl t1 t2 cache f d hpos hstale
    unfold _cache_get _cache_set
    rw [if_pos hpos, if_neg (not_le.mpr hpos)]
    simp only [lookupA_setA_self]
    rw [if_pos hstale]
    exact ⟨rfl, lookupA_removeA_self _ f⟩
  · intro β ttl now cache f hle
    unfold _cache_get
    rw [if_pos hle]
  · intro β ttl now cache f d hle
    unfold _cache_set
    rw [if_neg (not_lt.mpr hle)]

theorem cache_ttl_roundtrip_witness :
    (0 < (300 : ℤ) ∧ qsub 100 0 ≤ ((300 : ℤ) : ℚ) ∧
      (_cache_get 300 100
        (_cache_set 300 0 ([] : List (String × ℚ × ℤ)) "fp" 5) "fp").2
        = some 5) ∧
    (((300 : ℤ) : ℚ) < qsub 301 0 ∧
      (_cache_get 300 301
        (_cache_set 300 0 ([] : List (String × ℚ × ℤ)) "fp" 5) "fp").2
        = none) ∧
    ((-3 : ℤ) ≤ 0 ∧
      _cache_get (-3) 100 ([("fp", (0, 5))] : List (String × ℚ × ℤ)) "fp"
        = ([("fp", (0, 5))], none) ∧
      _cache_set (-3) 100 ([] : List (String × ℚ × ℤ)) "fp" 5 = []) :=
  ⟨⟨by decide, by decide,
      cache_ttl_roundtrip.1 ℤ 300 0 100 [] "fp" 5 (by decide) (by decide)⟩,
    ⟨by decide,
      (cache_ttl_roundtrip.2.1 ℤ 300 0 301 [] "fp" 5 (by decide)
        (by decide)).1⟩,
    ⟨by decide,
      cache_ttl_roundtrip.2.2.1 ℤ (-3) 100 [("fp", (0, 5))] "fp"
        (by decide),
      cache_ttl_roundtrip.2.2.2 ℤ (-3) 100 [] "fp" 5 (by decide)⟩⟩

theorem parse_stash_response_zero_scenes (cfg : Config) (ttl : ℤ)
    (now : ℚ) (st : SysState) (clause : String)
    (hmiss : (_cache_get ttl now st.cache ("filter:" ++ clause)).2 = none) :
    parse_stash_response cfg ttl now st clause (some []) =
      ({ st with
          cache := (_cache_get ttl now st.cache ("filter:" ++ clause)).1 },
        none) := by
  simp only [parse_stash_response]
  rw [hmiss]
  rfl

theorem matches_zero_scenes (cfg : Config) (ttl : ℤ) (now : ℚ)
    (st : SysState) (fn : String) (ex : Option String)
    (hfn : pyTruthyStr (some fn) = true)
    (hmiss : (_cache_get ttl now st.cache
      ("filter:" ++ filenameFilterClause fn)).2 = none) :
    (library_metadata_matches cfg ttl now st (some fn) ex (some [])).2 =
      emptyEnvelope := by
  simp only [library_metadata_matches, query_stash_by_filename, hfn,
    if_true, Option.getD]
  rw [parse_stash_response_zero_scenes cfg ttl now st
    (filenameFilterClause fn) hmiss]

theorem get_metadata_zero_scenes (cfg : Config) (ttl : ℤ)
    (uploadEnabled : Bool) (now : ℚ) (st : SysState) (rk sid : String)
    (hex : extract_rating_key_id rk = some sid)
    (hmiss : (_cache_get ttl now st.cache
      ("filter:" ++ ratingKeyFilterClause sid)).2 = none) :
    (get_metadata cfg ttl uploadEnabled now st rk (some [])).2 =
      (emptyEnvelope, none) := by
  have hrk : ¬(rk = "") := by
    intro hcon
    subst hcon
    have hn : extract_rating_key_id "" = none := by decide
    rw [hn] at hex
    exact Option.noConfusion hex
  simp only [get_metadata, query_stash_by_ratingKey, if_neg hrk, hex]
  rw [parse_stash_response_zero_scenes cfg ttl now st
    (ratingKeyFilterClause sid) hmiss]

/-- C7: a backend response with zero scenes makes the pipeline yield "no
match" — `parse_stash_response` returns `None`, writing nothing to the
cache (the only cache change is the lazy eviction the read itself
performs) — and both protocol handlers surface it as the well-formed
empty envelope with `offset = 0`, `totalSize = 0`, `size = 0` and an
empty `Metadata` list, never as an error. -/
theorem zero_scene_query_yields_empty_envelope :
    (∀ cfg ttl now st clause,
      (_cache_get ttl now st.cache ("filter:" ++ clause)).2 = none →
      parse_stash_response cfg ttl now st clause (some []) =
        ({ st with
            cache := (_cache_get ttl now st.cache ("filter:" ++ clause)).1 },
          none)) ∧
    (∀ cfg ttl now st fn ex, pyTruthyStr (some fn) = true →
      (_cache_get ttl now st.cache
        ("filter:" ++ filenameFilterClause fn)).2 = none →
      (library_metadata_matches cfg ttl now st (some fn) ex (some [])).2 =
        emptyEnvelope) ∧
    (∀ cfg ttl uploadEnabled now st rk sid,
      extract_rating_key_id rk = some sid →
      (_cache_get ttl now st.cache
        ("filter:" ++ ratingKeyFilterClause sid)).2 = none →
      (get_metadata cfg ttl uploadEnabled now st rk (some [])).2 =
        (emptyEnvelope, none)) ∧
    emptyEnvelope.offset = 0 ∧ emptyEnvelope.totalSize = 0 ∧
    emptyEnvelope.size = 0 ∧ emptyEnvelope.Metadata = [] ∧
    emptyEnvelope.identifier = "tv.plex.agents.custom.stash" :=
  ⟨parse_stash_response_zero_scenes, matches_zero_scenes,
    fun cfg ttl u now st rk sid hex hmiss =>
      get_metadata_zero_scenes cfg ttl u now st rk sid hex hmiss,
    rfl, rfl, rfl, rfl, rfl⟩

theorem zero_scene_query_yields_empty_envelope_witness :
    pyTruthyStr (some "clip_01.mp4") = true ∧
    (_cache_get 300 0 initState.cache
      ("filter:" ++ filenameFilterClause "clip_01.mp4")).2 = none ∧
    (library_metadata_matches defaultConfig 300 0 initState
      (some "clip_01.mp4") none (some [])).2 = emptyEnvelope ∧
    extract_rating_key_id "stash-video-42" = some "42" ∧
    (get_metadata defaultConfig 300 true 0 initState "stash-video-42"
      (some [])).2 = (emptyEnvelope, none) :=
  ⟨by decide, by decide,
    zero_scene_query_yields_empty_envelope.2.1 defaultConfig 300 0
      initState "clip_01.mp4" none (by decide) (by decide),
    by decide,
    zero_scene_query_yields_empty_envelope.2.2.1 defaultConfig 300 true 0
      initState "stash-video-42" "42" (by decide) (by decide)⟩

/-- C1 is a genuine defect of the code, evaluated here on its failing
input: the `matches` handler's `excludeElements` stripping pops fields
from the very dict objects the cache aliases (the Python function
returns the object it cached, and `item.pop` mutates it in place), so
after one request excluding `title` (step 2), a later plain cache hit
for the same fingerprint within the TTL (step 3) returns the document
without its `title` field — not the document as originally stored
(step 1, which carried `title = "Sample"`). -/
theorem matches_exclude_elements_poisons_cache :
    (aliasStep1.2.Metadata.map (fun it => itemGetStrD it "title" ""))
      = ["Sample"] ∧
    (aliasStep1.2.Metadata.map (fun it => hasKeyB it "title")) = [true] ∧
    (aliasStep2.2.Metadata.map (fun it => hasKeyB it "title")) = [false] ∧
    (aliasStep3.2.Metadata.map (fun it => hasKeyB it "title")) = [false] ∧
    ((getStore aliasStep3.1.store 0).Metadata.map
      (fun it => hasKeyB it "title")) = [false] ∧
    aliasStep3.2.totalSize = 1 := by
  refine ⟨by decide, by decide, by decide, by decide, by decide, by decide⟩

/-- C6 (amended): `GET /library/metadata/{ratingKey}` enqueues at most
one detached upload job, and it does so exactly when upload is enabled,
the query found a match, the first matched item's title is non-empty,
and the rating key has a numeric suffix (which the job is keyed by); the
response document and the cache/store state never depend on the upload
flag or the job. -/
theorem get_metadata_upload_job :
    (∀ cfg ttl u now st rk backend,
      ((get_metadata cfg ttl u now st rk backend).2.2 ≠ none) ↔
        (u = true ∧
          ∃ ref, (query_stash_by_ratingKey cfg ttl now st rk backend).2 =
              some ref ∧
            firstTitle (getStore
              (query_stash_by_ratingKey cfg ttl now st rk backend).1.store
              ref) ≠ "" ∧
            extract_rating_key_id rk ≠ none)) ∧
    (∀ cfg ttl u now st rk backend sid title,
      (get_metadata cfg ttl u now st rk backend).2.2 = some (sid, title) →
        extract_rating_key_id rk = some sid ∧ title ≠ "") ∧
    (∀ cfg ttl u now st rk backend,
      (get_metadata cfg ttl u now st rk backend).2.1 =
        (get_metadata cfg ttl false now st rk backend).2.1 ∧
      (get_metadata cfg ttl u now st rk backend).1 =
        (get_metadata cfg ttl false now st rk backend).1) := by
  refine ⟨?_, ?_, ?_⟩
  · intro cfg ttl u now st rk backend
    simp only [get_metadata]
    rcases hq : (query_stash_by_ratingKey cfg ttl now st rk backend).2
      with _ | ref
    · simp [hq]
    · simp only [hq]
      cases u with
      | false => simp
      | true =>
        simp only [if_true]
        rcases hm : (getStore
            (query_stash_by_ratingKey cfg ttl now st rk backend).1.store
            ref).Metadata with _ | ⟨item, rest⟩
        · simp [firstTitle, hm]
        · rcases hex : extract_rating_key_id rk with _ | sid
          · simp [hex, hm]
          · by_cases ht : itemGetStrD item "title" "" = ""
            · simp [hex, hm, ht, firstTitle]
            · simp [hex, hm, ht, firstTitle]
  · intro cfg ttl u now st rk backend sid title h
    simp only [get_metadata] at h
    rcases hq : (query_stash_by_ratingKey cfg ttl now st rk backend).2
      with _ | ref
    · rw [hq] at h; simp at h
    · rw [hq] at h
      cases u with
      | false => simp at h
      | true =>
        simp only [if_true] at h
        rcases hm : (getStore
            (query_stash_by_ratingKey cfg ttl now st rk backend).1.store
            ref).Metadata with _ | ⟨item, rest⟩
        · rw [hm] at h; simp at h
        · rw [hm] at h
          rcases hex : extract_rating_key_id rk with _ | sid2
          · rw [hex] at h; simp at h
          · rw [hex] at h
            by_cases ht : itemGetStrD item "title" "" = ""
            · simp [ht] at h
            · simp [ht] at h
              refine ⟨congrArg some h.1, ?_⟩
              rw [← h.2]
              exact ht
  · intro cfg ttl u now st rk backend
    simp only [get_metadata]
    rcases hq : (query_stash_by_ratingKey cfg ttl now st rk backend).2
      with _ | ref
    · simp [hq]
    · simp [hq]

theorem get_metadata_upload_job_witness :
    (get_metadata defaultConfig 300 true 0 initState "stash-video-42"
        (some [sampleScene])).2.2 = some ("42", "Sample") ∧
    ((get_metadata defaultConfig 300 true 0 initState "stash-video-42"
        (some [sampleScene])).2.2 ≠ none) ∧
    extract_rating_key_id "stash-video-42" = some "42" ∧
    ("Sample" : String) ≠ "" :=
  ⟨by decide,
    (get_metadata_upload_job.1 defaultConfig 300 true 0 initState
        "stash-video-42" (some [sampleScene])).mpr
      ⟨rfl, 0, by decide, by decide, by decide⟩,
    (get_metadata_upload_job.2.1 defaultConfig 300 true 0 initState
        "stash-video-42" (some [sampleScene]) "42" "Sample"
        (by decide)).1,
    (get_metadata_upload_job.2.1 defaultConfig 300 true 0 initState
        "stash-video-42" (some [sampleScene]) "42" "Sample"
        (by decide)).2⟩

/-- C6, counterexample to the claim as stated: with upload enabled and a
successful match (one metadata item), no job is enqueued when the
matched scene resolves to an empty title — the enqueue is not implied by
"upload enabled and match found" alone. -/
theorem get_metadata_no_job_for_empty_title :
    ((get_metadata defaultConfig 300 true 0 initState "stash-video-7"
        (some [untitledScene])).2.1).Metadata.length = 1 ∧
    ((get_metadata defaultConfig 300 true 0 initState "stash-video-7"
        (some [untitledScene])).2.1).totalSize = 1 ∧
    (get_metadata defaultConfig 300 true 0 initState "stash-video-7"
        (some [untitledScene])).2.2 = none := by
  refine ⟨by decide, by decide, by decide⟩

theorem lookupP_eq_none_of_hasKeyB_false (it : Item) (k : String)
    (h : hasKeyB it k = false) : lookupP it k = none := by
  induction it with
  | nil => rfl
  | cons kv rest ih =>
    obtain ⟨k1, v1⟩ := kv
    rw [hasKeyB, List.any_cons, Bool.or_eq_false_iff] at h
    unfold lookupP
    rw [h.1]
    simp only [Bool.false_eq_true, if_false]
    exact ih h.2

theorem hasKeyB_artSeg (cfg : Config) (sid : String) (k : String) :
    hasKeyB (artSeg cfg sid) k = (("art" == k) || ("thumb" == k)) := by
  simp [artSeg, hasKeyB]

theorem hasKeyB_idSeg (sid : String) (k : String) :
    hasKeyB (idSeg sid) k =
      (("guid" == k) || ("key" == k) || ("ratingKey" == k) ||
        ("type" == k)) := by
  simp [idSeg, hasKeyB, Bool.or_assoc]

theorem hasKeyB_coreSeg (scene : Scene) (k : String) :
    hasKeyB (coreSeg scene) k =
      (("title" == k) || ("summary" == k) ||
        ("originallyAvailableAt" == k)) := by
  simp [coreSeg, hasKeyB, Bool.or_assoc]

theorem hasKeyB_taglineSeg (scene : Scene) (k : String) :
    hasKeyB (taglineSeg scene) k =
      (decide (strOrElse scene.code "" ≠ "" ∧
          strOrElse scene.code "" ≠ sceneTitle scene) &&
        ("tagline" == k)) := by
  unfold taglineSeg
  split <;> simp_all [hasKeyB]

theorem hasKeyB_yearSeg (scene : Scene) (k : String) :
    hasKeyB (yearSeg scene) k =
      ((decide (4 ≤ (strOrElse scene.date "").data.length) &&
          (pyParseInt (String.mk ((strOrElse scene.date "").data.take 4))).isSome) &&
        ("year" == k)) := by
  unfold yearSeg
  split
  · next h =>
    cases hp : pyParseInt (String.mk ((strOrElse scene.date "").data.take 4)) <;>
      simp_all [hasKeyB]
  · next h => simp_all [hasKeyB]

theorem hasKeyB_addedAtSeg (scene : Scene) (k : String) :
    hasKeyB (addedAtSeg scene) k =
      ((decide (strOrElse scene.created_at "" ≠ "") &&
          (pyFromisoTimestamp (strOrElse scene.created_at "")).isSome) &&
        ("addedAt" == k)) := by
  unfold addedAtSeg
  split
  · next h =>
    cases hp : pyFromisoTimestamp (strOrElse scene.created_at "") <;>
      simp_all [hasKeyB]
  · next h => simp_all [hasKeyB]

theorem hasKeyB_studioSeg (scene : Scene) (k : String) :
    hasKeyB (studioSeg scene) k =
      (scene.studio.isSome && ("studio" == k)) := by
  unfold studioSeg
  cases scene.studio <;> simp [hasKeyB]

theorem hasKeyB_ratingSeg (scene : Scene) (k : String) :
    hasKeyB (ratingSeg scene) k =
      (scene.rating100.isSome && ("rating" == k)) := by
  unfold ratingSeg
  cases scene.rating100 <;> simp [hasKeyB]

theorem hasKeyB_directorSeg (scene : Scene) (k : String) :
    hasKeyB (directorSeg scene) k =
      (decide (strOrElse scene.director "" ≠ "") && ("Director" == k)) := by
  unfold directorSeg
  split <;> simp_all [hasKeyB]

theorem hasKeyB_genreSeg (scene : Scene) (k : String) :
    hasKeyB (genreSeg scene) k =
      (!(genreList scene.tags).isEmpty && ("Genre" == k)) := by
  unfold genreSeg
  split <;> simp_all [hasKeyB]

theorem hasKeyB_roleSeg (cfg : Config) (scene : Scene) (k : String) :
    hasKeyB (roleSeg cfg scene) k =
      (!(roleList cfg scene.performers).isEmpty && ("Role" == k)) := by
  unfold roleSeg
  split <;> simp_all [hasKeyB]

theorem hasKeyB_collectionSeg (scene : Scene) (k : String) :
    hasKeyB (collectionSeg scene) k =
      (!(collectionList scene.groups).isEmpty && ("Collection" == k)) := by
  unfold collectionSeg
  split <;> simp_all [hasKeyB]

theorem hasKeyB_chapterSeg (scene : Scene) (k : String) :
    hasKeyB (chapterSeg scene) k =
      ((!scene.scene_markers.isEmpty &&
          !(chapterList scene.scene_markers).isEmpty) &&
        ("Chapter" == k)) := by
  unfold chapterSeg
  split
  · simp_all [hasKeyB]
  · split <;> simp_all [hasKeyB]

theorem hasKeyB_durationEntry (o : Option ℚ) (k : String) :
    hasKeyB (durationEntry o) k = (o.isSome && ("duration" == k)) := by
  unfold durationEntry
  cases o <;> simp [hasKeyB]

theorem hasKeyB_widthEntry (o : Option ℤ) (k : String) :
    hasKeyB (widthEntry o) k = (pyTruthyInt o && ("width" == k)) := by
  unfold widthEntry
  split <;> simp_all [hasKeyB]

theorem hasKeyB_heightEntry (o : Option ℤ) (k : String) :
    hasKeyB (heightEntry o) k = (pyTruthyInt o && ("height" == k)) := by
  unfold heightEntry
  split <;> simp_all [hasKeyB]

theorem hasKeyB_videoCodecEntry (o : Option String) (k : String) :
    hasKeyB (videoCodecEntry o) k =
      (pyTruthyStr o && ("videoCodec" == k)) := by
  unfold videoCodecEntry
  split <;> simp_all [hasKeyB]

theorem hasKeyB_audioCodecEntry (o : Option String) (k : String) :
    hasKeyB (audioCodecEntry o) k =
      (pyTruthyStr o && ("audioCodec" == k)) := by
  unfold audioCodecEntry
  split <;> simp_all [hasKeyB]

theorem hasKeyB_bitrateEntry (o : Option ℤ) (k : String) :
    hasKeyB (bitrateEntry o) k = (pyTruthyInt o && ("bitrate" == k)) := by
  unfold bitrateEntry
  split <;> simp_all [hasKeyB]

theorem hasKeyB_frameRateEntry (o : Option ℚ) (k : String) :
    hasKeyB (frameRateEntry o) k =
      (pyTruthyQ o && ("videoFrameRate" == k)) := by
  unfold frameRateEntry
  split <;> simp_all [hasKeyB]

theorem hasKeyB_partFields (f : StashFile) (k : String) :
    hasKeyB (partFields f) k =
      ((pyTruthyStr f.path && ("file" == k)) ||
        (pyTruthyInt f.size && ("size" == k))) := by
  unfold partFields
  rw [hasKeyB_append]
  split <;> split <;> simp_all [hasKeyB]

theorem hasKeyB_partEntry (f : StashFile) (k : String) :
    hasKeyB (partEntry f) k =
      (!(partFields f).isEmpty && ("Part" == k)) := by
  unfold partEntry
  split <;> simp_all [hasKeyB]

theorem hasKeyB_videoResolutionEntry (o : Option ℤ) (k : String) :
    hasKeyB (videoResolutionEntry o) k =
      (pyTruthyInt o && ("videoResolution" == k)) := by
  unfold videoResolutionEntry
  split <;> simp_all [hasKeyB]

theorem hasKeyB_mediaFields (f : StashFile) (k : String) :
    hasKeyB (mediaFields f) k =
      ((f.duration.isSome && ("duration" == k)) ||
        (pyTruthyInt f.width && ("width" == k)) ||
        (pyTruthyInt f.height && ("height" == k)) ||
        (pyTruthyStr f.video_codec && ("videoCodec" == k)) ||
        (pyTruthyStr f.audio_codec && ("audioCodec" == k)) ||
        (pyTruthyInt f.bit_rate && ("bitrate" == k)) ||
        (pyTruthyQ f.frame_rate && ("videoFrameRate" == k)) ||
        (!(partFields f).isEmpty && ("Part" == k)) ||
        (pyTruthyInt f.height && ("videoResolution" == k))) := by
  unfold mediaFields
  simp only [hasKeyB_append, hasKeyB_durationEntry, hasKeyB_widthEntry,
    hasKeyB_heightEntry, hasKeyB_videoCodecEntry, hasKeyB_audioCodecEntry,
    hasKeyB_bitrateEntry, hasKeyB_frameRateEntry, hasKeyB_partEntry,
    hasKeyB_videoResolutionEntry, Bool.or_assoc]

theorem hasKeyB_mediaSeg_nil (scene : Scene) (k : String)
    (hfiles : scene.files = []) : hasKeyB (mediaSeg scene) k = false := by
  unfold mediaSeg
  rw [hfiles]
  rfl

theorem hasKeyB_mediaSeg_cons (scene : Scene) (f : StashFile)
    (rest : List StashFile) (k : String) (hfiles : scene.files = f :: rest) :
    hasKeyB (mediaSeg scene) k =
      ((f.duration.isSome && ("duration" == k)) ||
        (!(mediaFields f).isEmpty && ("Media" == k))) := by
  unfold mediaSeg
  rw [hfiles]
  rw [hasKeyB_append, hasKeyB_durationEntry]
  split
  · next h => simp [hasKeyB, h]
  · next h =>
    rw [Bool.not_eq_true] at h
    simp [hasKeyB, h]

theorem hasKeyB_mediaSeg_ne (scene : Scene) (k : String)
    (h1 : ("duration" == k) = false) (h2 : ("Media" == k) = false) :
    hasKeyB (mediaSeg scene) k = false := by
  cases hfiles : scene.files with
  | nil => exact hasKeyB_mediaSeg_nil scene k hfiles
  | cons f rest =>
    rw [hasKeyB_mediaSeg_cons scene f rest k hfiles, h1, h2]
    simp

theorem hasKeyB_translateScene (cfg : Config) (scene : Scene) (k : String) :
    hasKeyB (translateScene cfg scene) k =
      (hasKeyB (artSeg cfg scene.id) k || hasKeyB (idSeg scene.id) k ||
        hasKeyB (coreSeg scene) k || hasKeyB (taglineSeg scene) k ||
        hasKeyB (yearSeg scene) k || hasKeyB (addedAtSeg scene) k ||
        hasKeyB (studioSeg scene) k || hasKeyB (ratingSeg scene) k ||
        hasKeyB (directorSeg scene) k || hasKeyB (genreSeg scene) k ||
        hasKeyB (roleSeg cfg scene) k || hasKeyB (collectionSeg scene) k ||
        hasKeyB (chapterSeg scene) k || hasKeyB (mediaSeg scene) k) := by
  unfold translateScene
  simp only [hasKeyB_append, Bool.or_assoc]

theorem pyTruthyStr_iff (a : Option String) :
    pyTruthyStr a = true ↔ strOrElse a "" ≠ "" := by
  cases a with
  | none => simp [pyTruthyStr, strOrElse]
  | some s =>
    by_cases hs : s = "" <;> simp [pyTruthyStr, strOrElse, hs]

theorem genreList_ne_nil (tags : List STag) :
    genreList tags ≠ [] ↔ ∃ t ∈ tags, pyTruthyStr t.name = true := by
  rw [Ne, genreList, List.filterMap_eq_nil_iff]
  push_neg
  constructor
  · rintro ⟨t, ht, hf⟩
    refine ⟨t, ht, ?_⟩
    by_cases h : pyTruthyStr t.name = true
    · exact h
    · rw [if_neg h] at hf
      exact absurd rfl hf
  · rintro ⟨t, ht, hf⟩
    refine ⟨t, ht, ?_⟩
    rw [if_pos hf]
    simp

theorem roleList_ne_nil (cfg : Config) (ps : List Performer) :
    roleList cfg ps ≠ [] ↔ ∃ p ∈ ps, pyTruthyStr p.name = true := by
  rw [Ne, roleList, List.filterMap_eq_nil_iff]
  push_neg
  constructor
  · rintro ⟨p, hp, hf⟩
    refine ⟨p, hp, ?_⟩
    by_cases h : pyTruthyStr p.name = true
    · exact h
    · rw [if_neg h] at hf
      exact absurd rfl hf
  · rintro ⟨p, hp, hf⟩
    refine ⟨p, hp, ?_⟩
    rw [if_pos hf]
    simp

theorem collectionList_ne_nil (gs : List GroupEntry) :
    collectionList gs ≠ [] ↔
      ∃ ge ∈ gs, ∃ g, ge.group = some g ∧ pyTruthyStr g.name = true := by
  rw [Ne, collectionList, List.filterMap_eq_nil_iff]
  push_neg
  constructor
  · rintro ⟨ge, hge, hf⟩
    refine ⟨ge, hge, ?_⟩
    rcases hg : ge.group with _ | g
    · rw [hg] at hf
      exact absurd rfl hf
    · rw [hg] at hf
      refine ⟨g, rfl, ?_⟩
      have hf2 : (if pyTruthyStr g.name = true then
          some (PValue.obj [("tag", PValue.str (g.name.getD ""))])
        else none) ≠ none := hf
      by_cases h : pyTruthyStr g.name = true
      · exact h
      · rw [if_neg h] at hf2
        exact absurd rfl hf2
  · rintro ⟨ge, hge, g, hg, hf⟩
    refine ⟨ge, hge, ?_⟩
    rw [hg]
    show (if pyTruthyStr g.name = true then
        some (PValue.obj [("tag", PValue.str (g.name.getD ""))])
      else none) ≠ none
    rw [if_pos hf]
    simp

theorem insertMarker_ne_nil (m : Marker) (l : List Marker) :
    insertMarker m l ≠ [] := by
  cases l with
  | nil => simp [insertMarker]
  | cons x xs =>
    unfold insertMarker
    split <;> simp

theorem sortMarkers_ne_nil (ms : List Marker) (h : ms ≠ []) :
    sortMarkers ms ≠ [] := by
  cases ms with
  | nil => exact absurd rfl h
  | cons m rest => exact insertMarker_ne_nil m (sortMarkers rest)

theorem chapterList_ne_nil (ms : List Marker) (h : ms ≠ []) :
    chapterList ms ≠ [] := by
  unfold chapterList
  cases hs : sortMarkers ms with
  | nil => exact absurd hs (sortMarkers_ne_nil ms h)
  | cons a l => simp [List.enum_cons]

/-- C10 (amended): every translated item contains the keys `art`,
`thumb`, `guid`, `key`, `ratingKey`, `type`, `title`, `summary` and
`originallyAvailableAt`; every other field or sub-list appears only when
its source value is truthy — zero-valued `width`, `height`, `bit_rate`,
`size` and `frame_rate` and empty tag/performer/group/marker lists
produce no output field — with two exceptions tied to `is not None`
checks: `rating` is present whenever `rating100` is non-null (zero
included) and `duration` whenever the first file's duration is non-null
(zero included). -/
theorem translateScene_field_presence :
    (∀ cfg scene,
      hasKeyB (translateScene cfg scene) "art" = true ∧
      hasKeyB (translateScene cfg scene) "thumb" = true ∧
      hasKeyB (translateScene cfg scene) "guid" = true ∧
      hasKeyB (translateScene cfg scene) "key" = true ∧
      hasKeyB (translateScene cfg scene) "ratingKey" = true ∧
      hasKeyB (translateScene cfg scene) "type" = true ∧
      hasKeyB (translateScene cfg scene) "title" = true ∧
      hasKeyB (translateScene cfg scene) "summary" = true ∧
      hasKeyB (translateScene cfg scene) "originallyAvailableAt" = true) ∧
    (∀ cfg scene, hasKeyB (translateScene cfg scene) "tagline" = true →
      pyTruthyStr scene.code = true) ∧
    (∀ cfg scene, hasKeyB (translateScene cfg scene) "year" = true →
      pyTruthyStr scene.date = true) ∧
    (∀ cfg scene, hasKeyB (translateScene cfg scene) "addedAt" = true →
      pyTruthyStr scene.created_at = true) ∧
    (∀ cfg scene, hasKeyB (translateScene cfg scene) "studio" = true ↔
      scene.studio ≠ none) ∧
    (∀ cfg scene, hasKeyB (translateScene cfg scene) "Director" = true →
      pyTruthyStr scene.director = true) ∧
    (∀ cfg scene, hasKeyB (translateScene cfg scene) "Genre" = true ↔
      ∃ t ∈ scene.tags, pyTruthyStr t.name = true) ∧
    (∀ cfg scene, hasKeyB (translateScene cfg scene) "Role" = true ↔
      ∃ p ∈ scene.performers, pyTruthyStr p.name = true) ∧
    (∀ cfg scene, hasKeyB (translateScene cfg scene) "Collection" = true ↔
      ∃ ge ∈ scene.groups, ∃ g, ge.group = some g ∧
        pyTruthyStr g.name = true) ∧
    (∀ cfg scene, hasKeyB (translateScene cfg scene) "Chapter" = true ↔
      scene.scene_markers ≠ []) ∧
    (∀ cfg scene, hasKeyB (translateScene cfg scene) "rating" = true ↔
      scene.rating100 ≠ none) ∧
    (∀ cfg scene f rest, scene.files = f :: rest →
      (hasKeyB (translateScene cfg scene) "duration" = true ↔
        f.duration ≠ none)) ∧
    (∀ cfg scene f rest, scene.files = f :: rest →
      (hasKeyB (translateScene cfg scene) "Media" = true ↔
        mediaFields f ≠ [])) ∧
    (∀ cfg scene, scene.files = [] →
      hasKeyB (translateScene cfg scene) "duration" = false ∧
      hasKeyB (translateScene cfg scene) "Media" = false) ∧
    (∀ f : StashFile,
      hasKeyB (mediaFields f) "width" = pyTruthyInt f.width ∧
      hasKeyB (mediaFields f) "height" = pyTruthyInt f.height ∧
      hasKeyB (mediaFields f) "bitrate" = pyTruthyInt f.bit_rate ∧
      hasKeyB (mediaFields f) "videoFrameRate" = pyTruthyQ f.frame_rate ∧
      hasKeyB (mediaFields f) "videoResolution" = pyTruthyInt f.height ∧
      hasKeyB (partFields f) "size" = pyTruthyInt f.size ∧
      hasKeyB (partFields f) "file" = pyTruthyStr f.path) ∧
    mediaFields zeroFile = [] ∧
    hasKeyB (translateScene defaultConfig zeroFileScene) "duration"
      = false ∧
    hasKeyB (translateScene defaultConfig zeroFileScene) "Media" = false := by
  refine ⟨?_, ?_, ?_, ?_, ?_, ?_, ?_, ?_, ?_, ?_, ?_, ?_, ?_, ?_, ?_,
    rfl, by decide, by decide⟩
  · intro cfg scene
    refine ⟨?_, ?_, ?_, ?_, ?_, ?_, ?_, ?_, ?_⟩ <;>
      simp [hasKeyB_translateScene, hasKeyB_artSeg, hasKeyB_idSeg,
        hasKeyB_coreSeg]
  · intro cfg scene h
    rw [hasKeyB_translateScene] at h
    simp [hasKeyB_artSeg, hasKeyB_idSeg, hasKeyB_coreSeg,
      hasKeyB_taglineSeg, hasKeyB_yearSeg, hasKeyB_addedAtSeg,
      hasKeyB_studioSeg, hasKeyB_ratingSeg, hasKeyB_directorSeg,
      hasKeyB_genreSeg, hasKeyB_roleSeg, hasKeyB_collectionSeg,
      hasKeyB_chapterSeg, hasKeyB_mediaSeg_ne] at h
    rw [pyTruthyStr_iff]
    exact h.1
  · intro cfg scene h
    rw [hasKeyB_translateScene] at h
    simp [hasKeyB_artSeg, hasKeyB_idSeg, hasKeyB_coreSeg,
      hasKeyB_taglineSeg, hasKeyB_yearSeg, hasKeyB_addedAtSeg,
      hasKeyB_studioSeg, hasKeyB_ratingSeg, hasKeyB_directorSeg,
      hasKeyB_genreSeg, hasKeyB_roleSeg, hasKeyB_collectionSeg,
      hasKeyB_chapterSeg, hasKeyB_mediaSeg_ne] at h
    rw [pyTruthyStr_iff]
    intro hcon
    rw [hcon] at h
    simp at h
  · intro cfg scene h
    rw [hasKeyB_translateScene] at h
    simp [hasKeyB_artSeg, hasKeyB_idSeg, hasKeyB_coreSeg,
      hasKeyB_taglineSeg, hasKeyB_yearSeg, hasKeyB_addedAtSeg,
      hasKeyB_studioSeg, hasKeyB_ratingSeg, hasKeyB_directorSeg,
      hasKeyB_genreSeg, hasKeyB_roleSeg, hasKeyB_collectionSeg,
      hasKeyB_chapterSeg, hasKeyB_mediaSeg_ne] at h
    rw [pyTruthyStr_iff]
    exact h.1
  · intro cfg scene
    rw [hasKeyB_translateScene]
    simp [hasKeyB_artSeg, hasKeyB_idSeg, hasKeyB_coreSeg,
      hasKeyB_taglineSeg, hasKeyB_yearSeg, hasKeyB_addedAtSeg,
      hasKeyB_studioSeg, hasKeyB_ratingSeg, hasKeyB_directorSeg,
      hasKeyB_genreSeg, hasKeyB_roleSeg, hasKeyB_collectionSeg,
      hasKeyB_chapterSeg, hasKeyB_mediaSeg_ne, Option.isSome_iff_ne_none]
  · intro cfg scene h
    rw [hasKeyB_translateScene] at h
    simp [hasKeyB_artSeg, hasKeyB_idSeg, hasKeyB_coreSeg,
      hasKeyB_taglineSeg, hasKeyB_yearSeg, hasKeyB_addedAtSeg,
      hasKeyB_studioSeg, hasKeyB_ratingSeg, hasKeyB_directorSeg,
      hasKeyB_genreSeg, hasKeyB_roleSeg, hasKeyB_collectionSeg,
      hasKeyB_chapterSeg, hasKeyB_mediaSeg_ne] at h
    rw [pyTruthyStr_iff]
    exact h
  · intro cfg scene
    rw [hasKeyB_translateScene]
    rw [← genreList_ne_nil scene.tags]
    simp [hasKeyB_artSeg, hasKeyB_idSeg, hasKeyB_coreSeg,
      hasKeyB_taglineSeg, hasKeyB_yearSeg, hasKeyB_addedAtSeg,
      hasKeyB_studioSeg, hasKeyB_ratingSeg, hasKeyB_directorSeg,
      hasKeyB_genreSeg, hasKeyB_roleSeg, hasKeyB_collectionSeg,
      hasKeyB_chapterSeg, hasKeyB_mediaSeg_ne, List.isEmpty_eq_false]
  · intro cfg scene
    rw [hasKeyB_translateScene]
    rw [← roleList_ne_nil cfg scene.performers]
    simp [hasKeyB_artSeg, hasKeyB_idSeg, hasKeyB_coreSeg,
      hasKeyB_taglineSeg, hasKeyB_yearSeg, hasKeyB_addedAtSeg,
      hasKeyB_studioSeg, hasKeyB_ratingSeg, hasKeyB_directorSeg,
      hasKeyB_genreSeg, hasKeyB_roleSeg, hasKeyB_collectionSeg,
      hasKeyB_chapterSeg, hasKeyB_mediaSeg_ne, List.isEmpty_eq_false]
  · intro cfg scene
    rw [hasKeyB_translateScene]
    rw [← collectionList_ne_nil scene.groups]
    simp [hasKeyB_artSeg, hasKeyB_idSeg, hasKeyB_coreSeg,
      hasKeyB_taglineSeg, hasKeyB_yearSeg, hasKeyB_addedAtSeg,
      hasKeyB_studioSeg, hasKeyB_ratingSeg, hasKeyB_directorSeg,
      hasKeyB_genreSeg, hasKeyB_roleSeg, hasKeyB_collectionSeg,
      hasKeyB_chapterSeg, hasKeyB_mediaSeg_ne, List.isEmpty_eq_false]
  · intro cfg scene
    rw [hasKeyB_translateScene]
    simp [hasKeyB_artSeg, hasKeyB_idSeg, hasKeyB_coreSeg,
      hasKeyB_taglineSeg, hasKeyB_yearSeg, hasKeyB_addedAtSeg,
      hasKeyB_studioSeg, hasKeyB_ratingSeg, hasKeyB_directorSeg,
      hasKeyB_genreSeg, hasKeyB_roleSeg, hasKeyB_collectionSeg,
      hasKeyB_chapterSeg, hasKeyB_mediaSeg_ne, List.isEmpty_eq_false]
    intro h
    exact chapterList_ne_nil scene.scene_markers h
  · intro cfg scene
    rw [hasKeyB_translateScene]
    simp [hasKeyB_artSeg, hasKeyB_idSeg, hasKeyB_coreSeg,
      hasKeyB_taglineSeg, hasKeyB_yearSeg, hasKeyB_addedAtSeg,
      hasKeyB_studioSeg, hasKeyB_ratingSeg, hasKeyB_directorSeg,
      hasKeyB_genreSeg, hasKeyB_roleSeg, hasKeyB_collectionSeg,
      hasKeyB_chapterSeg, hasKeyB_mediaSeg_ne, Option.isSome_iff_ne_none]
  · intro cfg scene f rest hfiles
    rw [hasKeyB_translateScene]
    rw [hasKeyB_mediaSeg_cons scene f rest "duration" hfiles]
    simp [hasKeyB_artSeg, hasKeyB_idSeg, hasKeyB_coreSeg,
      hasKeyB_taglineSeg, hasKeyB_yearSeg, hasKeyB_addedAtSeg,
      hasKeyB_studioSeg, hasKeyB_ratingSeg, hasKeyB_directorSeg,
      hasKeyB_genreSeg, hasKeyB_roleSeg, hasKeyB_collectionSeg,
      hasKeyB_chapterSeg, Option.isSome_iff_ne_none]
  · intro cfg scene f rest hfiles
    rw [hasKeyB_translateScene]
    rw [hasKeyB_mediaSeg_cons scene f rest "Media" hfiles]
    simp [hasKeyB_artSeg, hasKeyB_idSeg, hasKeyB_coreSeg,
      hasKeyB_taglineSeg, hasKeyB_yearSeg, hasKeyB_addedAtSeg,
      hasKeyB_studioSeg, hasKeyB_ratingSeg, hasKeyB_directorSeg,
      hasKeyB_genreSeg, hasKeyB_roleSeg, hasKeyB_collectionSeg,
      hasKeyB_chapterSeg, List.isEmpty_eq_false]
  · intro cfg scene hfiles
    constructor <;>
      · rw [hasKeyB_translateScene]
        rw [hasKeyB_mediaSeg_nil scene _ hfiles]
        simp [hasKeyB_artSeg, hasKeyB_idSeg, hasKeyB_coreSeg,
          hasKeyB_taglineSeg, hasKeyB_yearSeg, hasKeyB_addedAtSeg,
          hasKeyB_studioSeg, hasKeyB_ratingSeg, hasKeyB_directorSeg,
          hasKeyB_genreSeg, hasKeyB_roleSeg, hasKeyB_collectionSeg,
          hasKeyB_chapterSeg]
  · intro f
    refine ⟨?_, ?_, ?_, ?_, ?_, ?_, ?_⟩ <;>
      simp [hasKeyB_mediaFields, hasKeyB_partFields]

theorem translateScene_field_presence_witness :
    hasKeyB (translateScene defaultConfig sampleScene) "art" = true ∧
    hasKeyB (translateScene defaultConfig taggedScene) "tagline" = true ∧
    pyTruthyStr taggedScene.code = true ∧
    zeroFileScene.files = [zeroFile] ∧
    (hasKeyB (translateScene defaultConfig zeroFileScene) "duration" = true
      ↔ zeroFile.duration ≠ none) :=
  ⟨((translateScene_field_presence.1 defaultConfig sampleScene).1),
    by decide,
    translateScene_field_presence.2.1 defaultConfig taggedScene (by decide),
    rfl,
    translateScene_field_presence.2.2.2.2.2.2.2.2.2.2.2.1 defaultConfig
      zeroFileScene zeroFile [] rfl⟩

/-- C10, counterexample to the claim as stated: a scene rated exactly
zero — a falsy source value — still produces a `rating` field, because
the source guards `rating` with `is not None` rather than truthiness. -/
theorem translate_zero_rating_counterexample :
    zeroRatedScene.rating100 = some 0 ∧
    pyTruthyInt zeroRatedScene.rating100 = false ∧
    hasKeyB (translateScene defaultConfig zeroRatedScene) "rating"
      = true := by
  refine ⟨by decide, by decide, by decide⟩

theorem lookupP_append_none_right (a b : Item) (k : String)
    (h : lookupP b k = none) : lookupP (a ++ b) k = lookupP a k := by
  cases ha : lookupP a k with
  | none => rw [lookupP_append_right a b k ha, h]
  | some v => rw [lookupP_append_left a b k v ha]

theorem lookupP_translate_art (cfg : Config) (scene : Scene) :
    lookupP (translateScene cfg scene) "art" =
      some (PValue.str (sceneArtUrl cfg scene.id)) := by
  unfold translateScene artSeg
  simp [lookupP]

theorem lookupP_translate_thumb (cfg : Config) (scene : Scene) :
    lookupP (translateScene cfg scene) "thumb" =
      some (PValue.str (sceneArtUrl cfg scene.id)) := by
  unfold translateScene artSeg
  simp [lookupP]

theorem lookupP_translate_role (cfg : Config) (scene : Scene) :
    lookupP (translateScene cfg scene) "Role" =
      lookupP (roleSeg cfg scene) "Role" := by
  unfold translateScene
  simp only [List.append_assoc]
  rw [lookupP_append_right _ _ _ (lookupP_eq_none_of_hasKeyB_false _ _
    (by rw [hasKeyB_artSeg]; decide))]
  rw [lookupP_append_right _ _ _ (lookupP_eq_none_of_hasKeyB_false _ _
    (by rw [hasKeyB_idSeg]; decide))]
  rw [lookupP_append_right _ _ _ (lookupP_eq_none_of_hasKeyB_false _ _
    (by rw [hasKeyB_coreSeg]; decide))]
  rw [lookupP_append_right _ _ _ (lookupP_eq_none_of_hasKeyB_false _ _
    (by rw [hasKeyB_taglineSeg]; simp))]
  rw [lookupP_append_right _ _ _ (lookupP_eq_none_of_hasKeyB_false _ _
    (by rw [hasKeyB_yearSeg]; simp))]
  rw [lookupP_append_right _ _ _ (lookupP_eq_none_of_hasKeyB_false _ _
    (by rw [hasKeyB_addedAtSeg]; simp))]
  rw [lookupP_append_right _ _ _ (lookupP_eq_none_of_hasKeyB_false _ _
    (by rw [hasKeyB_studioSeg]; simp))]
  rw [lookupP_append_right _ _ _ (lookupP_eq_none_of_hasKeyB_false _ _
    (by rw [hasKeyB_ratingSeg]; simp))]
  rw [lookupP_append_right _ _ _ (lookupP_eq_none_of_hasKeyB_false _ _
    (by rw [hasKeyB_directorSeg]; simp))]
  rw [lookupP_append_right _ _ _ (lookupP_eq_none_of_hasKeyB_false _ _
    (by rw [hasKeyB_genreSeg]; simp))]
  rw [lookupP_append_none_right]
  rw [lookupP_append_right _ _ _ (lookupP_eq_none_of_hasKeyB_false _ _
    (by rw [hasKeyB_collectionSeg]; simp))]
  rw [lookupP_append_right _ _ _ (lookupP_eq_none_of_hasKeyB_false _ _
    (by rw [hasKeyB_chapterSeg]; simp))]
  exact lookupP_eq_none_of_hasKeyB_false _ _
    (by rw [hasKeyB_mediaSeg_ne] <;> decide)

theorem roleObjThumbs_cons (r : PValue) (rs : List PValue) :
    roleObjThumbs (r :: rs) = thumbOfRole r ++ roleObjThumbs rs := by
  simp [roleObjThumbs]

theorem thumbOfRole_roleFields_pos (cfg : Config) (p : Performer)
    (hi : pyTruthyStr p.id = true) :
    thumbOfRole (PValue.obj (roleFields cfg p)) =
      [cfg.stashHost ++ "/performer/" ++ p.id.getD "" ++ "/image"] := by
  unfold thumbOfRole roleFields
  rw [if_pos hi]
  simp [lookupP]

theorem thumbOfRole_roleFields_neg (cfg : Config) (p : Performer)
    (hi : pyTruthyStr p.id = false) :
    thumbOfRole (PValue.obj (roleFields cfg p)) = [] := by
  unfold thumbOfRole roleFields
  rw [hi]
  simp [lookupP]

theorem roleObjThumbs_roleList (cfg : Config) (ps : List Performer) :
    roleObjThumbs (roleList cfg ps) =
      (ps.filter (fun p => pyTruthyStr p.name && pyTruthyStr p.id)).map
        (fun p => cfg.stashHost ++ "/performer/" ++ p.id.getD "" ++
          "/image") := by
  induction ps with
  | nil => rfl
  | cons p ps ih =>
    rw [roleList, List.filterMap_cons, List.filter_cons]
    by_cases hn : pyTruthyStr p.name = true
    · rw [if_pos hn, roleObjThumbs_cons]
      by_cases hi : pyTruthyStr p.id = true
      · rw [thumbOfRole_roleFields_pos cfg p hi]
        rw [show (pyTruthyStr p.name && pyTruthyStr p.id) = true by
          simp [hn, hi]]
        simp only [if_true, List.map_cons, List.singleton_append]
        exact congrArg (List.cons _) ih
      · rw [Bool.not_eq_true] at hi
        rw [thumbOfRole_roleFields_neg cfg p hi]
        rw [show (pyTruthyStr p.name && pyTruthyStr p.id) = false by
          rw [hi, Bool.and_false]]
        simp only [Bool.false_eq_true, if_false, List.nil_append]
        exact ih
    · rw [Bool.not_eq_true] at hn
      rw [if_neg (by rw [hn]; exact Bool.false_ne_true)]
      rw [show (pyTruthyStr p.name && pyTruthyStr p.id) = false by
        rw [hn, Bool.false_and]]
      simp only [Bool.false_eq_true, if_false]
      exact ih

theorem itemRoleThumbs_translate (cfg : Config) (scene : Scene) :
    itemRoleThumbs (translateScene cfg scene) =
      (scene.performers.filter
        (fun p => pyTruthyStr p.name && pyTruthyStr p.id)).map
        (fun p => cfg.stashHost ++ "/performer/" ++ p.id.getD "" ++
          "/image") := by
  unfold itemRoleThumbs
  rw [lookupP_translate_role]
  unfold roleSeg
  by_cases h : (roleList cfg scene.performers).isEmpty = true
  · rw [if_pos h]
    rw [List.isEmpty_eq_true] at h
    rw [← roleObjThumbs_roleList cfg scene.performers, h]
    rfl
  · rw [if_neg h]
    show roleObjThumbs (roleList cfg scene.performers) = _
    exact roleObjThumbs_roleList cfg scene.performers

/-- C5 (amended): the `art` and `thumb` fields of every translated item
point back at this service's own poster-render or screenshot-proxy
endpoint under its configured base URL; the thumbnail references of
performer `Role` entries, however, point directly at the backend host's
`/performer/{id}/image` endpoint (one per performer with a truthy name
and id), not at this service. -/
theorem translate_artwork_urls :
    (∀ cfg scene, lookupP (translateScene cfg scene) "art" =
      some (PValue.str (sceneArtUrl cfg scene.id))) ∧
    (∀ cfg scene, lookupP (translateScene cfg scene) "thumb" =
      some (PValue.str (sceneArtUrl cfg scene.id))) ∧
    (∀ cfg sid, sceneArtUrl cfg sid =
      cfg.agentBaseUrl ++ "/stash/scene/" ++ sid ++
        (if cfg.posterMode then "/poster" else "/screenshot")) ∧
    (∀ cfg sid, strStartsWith (sceneArtUrl cfg sid)
      (cfg.agentBaseUrl ++ "/stash/scene/") = true) ∧
    (∀ cfg scene, itemRoleThumbs (translateScene cfg scene) =
      (scene.performers.filter
        (fun p => pyTruthyStr p.name && pyTruthyStr p.id)).map
        (fun p => cfg.stashHost ++ "/performer/" ++ p.id.getD "" ++
          "/image")) := by
  refine ⟨lookupP_translate_art, lookupP_translate_thumb, ?_, ?_, ?_⟩
  · intro cfg sid
    unfold sceneArtUrl
    split <;> rfl
  · intro cfg sid
    unfold sceneArtUrl strStartsWith
    rw [List.isPrefixOf_iff_prefix]
    split <;>
      · rw [String.data_append, String.data_append, String.data_append,
          String.data_append, List.append_assoc]
        exact List.prefix_append _ _
  · exact itemRoleThumbs_translate

/-- C5, counterexample to the claim as stated: with the default
configuration, the performer `Role` thumbnail of the sample scene is a
backend-host URL, and it does not start with this service's base URL. -/
theorem role_thumb_points_at_backend :
    itemRoleThumbs (translateScene defaultConfig sampleScene) =
      ["http://192.168.1.71:9999/performer/3/image"] ∧
    strStartsWith "http://192.168.1.71:9999/performer/3/image"
      defaultConfig.stashHost = true ∧
    strStartsWith "http://192.168.1.71:9999/performer/3/image"
      defaultConfig.agentBaseUrl = false := by
  refine ⟨by decide, by decide, by decide⟩

end StashPlex
